import Mathlib

/-!
Verification of the multi-provider music metadata aggregation layer of the
repository: the file-index (Synology) adapter, the home-media (Plex) adapter
and the provider router are shallowly embedded as pure Lean functions, and the
testable properties of the specification are settled against them.

Conventions of the embedding:
- JavaScript strings handled by the base64 codec are modelled as their UTF-8
  byte lists (`List Nat`, each element below 256), matching what
  `Buffer.from(s)` produces; `Buffer.toString("base64")` and
  `Buffer.from(x, "base64")` are modelled by a standard RFC 4648 base64
  encoder/decoder over those byte lists.
- Network interactions are modelled by passing each awaited call result as an
  explicit `Except String _` argument (error = the promise rejected / an
  exception was thrown); `try/catch` becomes a `match` on that value.
- JavaScript truthiness on strings (empty string and `undefined` are falsy)
  is made explicit through the `jsOr`-style helpers below.
-/

namespace AudioAgg

/-- JS `a || b` on strings: `a` unless it is the empty string (falsy). -/
def jsOr (a b : String) : String :=
  if a = "" then b else a

/-- JS `a || b` where `a : string | undefined` and `b` is a string. -/
def jsOrOptStr (a : Option String) (b : String) : String :=
  match a with
  | none => b
  | some s => if s = "" then b else s

/-- JS `a || b` where both sides are `string | undefined`. -/
def jsOrOpt (a b : Option String) : Option String :=
  match a with
  | none => b
  | some s => if s = "" then b else some s

/-- JS `a || b` where `a : number | undefined` and `b` is a number (0 falsy). -/
def jsOrOptNat (a : Option Nat) (b : Nat) : Nat :=
  match a with
  | none => b
  | some n => if n = 0 then b else n

/-- JS truthiness of an optional string value. -/
def jsTruthy : Option String → Bool
  | none => false
  | some s => s ≠ ""

/-- Whether the first list is an initial run of the second. -/
def leadMatch [DecidableEq α] : List α → List α → Bool
  | [], _ => true
  | _ :: _, [] => false
  | a :: s, b :: t => a = b && leadMatch s t

/-- Whether the needle occurs contiguously anywhere in the hay. -/
def midMatch [DecidableEq α] (needle : List α) : List α → Bool
  | [] => needle.isEmpty
  | b :: t => leadMatch needle (b :: t) || midMatch needle t

/-- Split on a non-empty separator, scanning left to right (the fuel is the
length of the remaining input, so the recursion is structural). Matches the
behavior of the JS string split used by the adapters. -/
def splitOnAuxCl (sep : List Char) : Nat → List Char → List Char → List (List Char)
  | _, [], acc => [acc.reverse]
  | 0, l, acc => [acc.reverse ++ l]
  | fuel + 1, c :: rest, acc =>
      if leadMatch sep (c :: rest) then
        acc.reverse :: splitOnAuxCl sep fuel (rest.drop (sep.length - 1)) []
      else
        splitOnAuxCl sep fuel rest (c :: acc)

/-- JS String.split with a string separator (the adapters only ever pass a
non-empty separator). -/
def splitOnStr (s sep : String) : List String :=
  if sep = "" then [s]
  else (splitOnAuxCl sep.toList s.toList.length s.toList []).map String.mk

/-- ASCII lower-casing of one character (the only case the adapters depend
on; the file extensions and queries compared are ASCII). -/
def lowerChar (c : Char) : Char :=
  if 65 ≤ c.toNat ∧ c.toNat ≤ 90 then Char.ofNat (c.toNat + 32) else c

/-- JS toLowerCase, modelled on the ASCII range. -/
def toLowerStr (s : String) : String :=
  String.mk (s.toList.map lowerChar)

/-- JS String.endsWith. -/
def endsWithStr (s post : String) : Bool :=
  leadMatch post.toList.reverse s.toList.reverse

/-- JS String.includes. -/
def jsIncludes (s sub : String) : Bool :=
  midMatch sub.toList s.toList

/-!
## Base64 identifier codec

The file-index adapter builds identifiers by taking the standard base64 of
the UTF-8 path bytes and then replacing every plus with a dash, every slash
with an underscore, and deleting every equals sign (synology-api.ts,
mapFileToSong). It decodes a token by replacing every dash with a plus and
every underscore with a slash, appending equals signs until the length is a
multiple of 4, and base64-decoding (synology-api.ts, getSongDetails).

Below, toSextets and fromSextets model the byte/sextet regrouping of
standard base64, b64Char and b64CharVal the alphabet, and b64chars the full
padded base64 string of a byte list.
-/

/-- Regroup bytes into base64 sextets (bit groups of 6), as the encoder does. -/
def toSextets : List Nat → List Nat
  | [] => []
  | [a] => [a / 4, a % 4 * 16]
  | [a, b] => [a / 4, a % 4 * 16 + b / 16, b % 16 * 4]
  | a :: b :: c :: t =>
      a / 4 :: (a % 4 * 16 + b / 16) :: (b % 16 * 4 + c / 64) :: c % 64 :: toSextets t

/-- Regroup base64 sextets back into bytes, as the decoder does; a trailing
lone sextet yields no byte (as in the forgiving Node decoder). -/
def fromSextets : List Nat → List Nat
  | s1 :: s2 :: s3 :: s4 :: t =>
      (s1 * 4 + s2 / 16) :: (s2 % 16 * 16 + s3 / 4) :: (s3 % 4 * 64 + s4) :: fromSextets t
  | [s1, s2] => [s1 * 4 + s2 / 16]
  | [s1, s2, s3] => [s1 * 4 + s2 / 16, s2 % 16 * 16 + s3 / 4]
  | _ => []

/-- The standard base64 alphabet (RFC 4648), indexed by sextet value. -/
def b64Char (s : Nat) : Char :=
  if s < 26 then Char.ofNat (65 + s)
  else if s < 52 then Char.ofNat (97 + (s - 26))
  else if s < 62 then Char.ofNat (48 + (s - 52))
  else if s = 62 then '+'
  else '/'

/-- Inverse of the base64 alphabet; `none` on a character outside it. -/
def b64CharVal (c : Char) : Option Nat :=
  if 'A' ≤ c ∧ c ≤ 'Z' then some (c.toNat - 65)
  else if 'a' ≤ c ∧ c ≤ 'z' then some (c.toNat - 97 + 26)
  else if '0' ≤ c ∧ c ≤ '9' then some (c.toNat - 48 + 52)
  else if c = '+' then some 62
  else if c = '/' then some 63
  else none

/-- Standard padded base64 of a byte list, i.e. `Buffer.toString("base64")`. -/
def b64chars (l : List Nat) : List Char :=
  (toSextets l).map b64Char ++
    List.replicate ((4 - (toSextets l).length % 4) % 4) '='

/-- Option-valued traversal of a list (the effect of mapping a fallible
decoder over every character). -/
def optTraverse (f : α → Option β) : List α → Option (List β)
  | [] => some []
  | a :: t =>
      match f a, optTraverse f t with
      | some b, some bt => some (b :: bt)
      | _, _ => none

/-- Base64 decoding of a character list, i.e. `Buffer.from(x, "base64")`:
padding characters are ignored, any other character outside the alphabet makes
the decode fail. -/
def decodeB64 (l : List Char) : Option (List Nat) :=
  (optTraverse b64CharVal (l.filter (fun c => c ≠ '='))).map fromSextets

/-- The identifier of a file path (as UTF-8 bytes), from mapFileToSong:
base64, then the three replaces (plus to dash, slash to underscore, equals
deleted). -/
def encodeFileId (path : List Nat) : List Char :=
  (((b64chars path).map (fun c => if c = '+' then '-' else c)).map
      (fun c => if c = '/' then '_' else c)).filter (fun c => c ≠ '=')

/-- Token decoding from getSongDetails: dash back to plus, underscore back to
slash, pad with equals to a multiple of 4, then base64-decode. -/
def decodeSongToken (tok : List Char) : Option (List Nat) :=
  let b64 := ((tok.map (fun c => if c = '-' then '+' else c)).map
    (fun c => if c = '_' then '/' else c))
  let padded := b64 ++ List.replicate ((4 - b64.length % 4) % 4) '='
  decodeB64 padded

/-- The id built for artist entries in searchAll and for album entries in
getArtistDetails: base64 of the name with every plus, slash and equals
character deleted (a single character-class replace in the source). -/
def strippedB64Id (name : List Nat) : List Char :=
  (b64chars name).filter (fun c => ¬ (c = '+' ∨ c = '/' ∨ c = '='))

/-- UTF-8 bytes of one Unicode scalar value, as Buffer.from produces them. -/
def charUtf8 (c : Char) : List Nat :=
  let n := c.toNat
  if n < 128 then [n]
  else if n < 2048 then [192 + n / 64, 128 + n % 64]
  else if n < 65536 then [224 + n / 4096, 128 + n / 64 % 64, 128 + n % 64]
  else [240 + n / 262144, 128 + n / 4096 % 64, 128 + n / 64 % 64, 128 + n % 64]

/-- UTF-8 byte list of a string: the bytes Buffer.from gives a JS string. -/
def utf8Bytes (s : String) : List Nat :=
  s.toList.foldr (fun c acc => charUtf8 c ++ acc) []

/-- Image and stream link entry (one quality tier). -/
structure QualityLink where
  quality : String
  link : String
  deriving Repr, DecidableEq

/-- One collection of a search bundle. -/
structure SearchSection (α : Type) where
  count : Nat
  last_page : Bool
  data : List α
  deriving Repr, DecidableEq

/-- The environment configuration consumed by the router and the adapters.
Optional fields model variables that may be unset (the env layer turns empty
strings into undefined, but the adapters re-check falsiness, so the model
keeps the possibly-empty string). API_PROVIDER carries its zod default via
the JS or in the router. -/
structure Env where
  API_PROVIDER : String
  PLEX_URL : Option String
  PLEX_TOKEN : Option String
  SYNOLOGY_SERVER_URL : Option String
  SYNOLOGY_USERNAME : Option String
  SYNOLOGY_PASSWORD : Option String
  deriving Repr, DecidableEq

/-! ## File-index (Synology) adapter: filename heuristic and scan model -/

namespace Synology

/-- Strips a final dot-extension (a dot followed by at least one character
that is neither a dot nor a slash, at the end), as the replace with the
extension regex in the source does; returns the input unchanged when no such
suffix exists. -/
def stripExtension (s : String) : String :=
  let rev := s.toList.reverse
  let ext := rev.takeWhile (fun c => c ≠ '.' ∧ c ≠ '/')
  match rev.drop ext.length with
  | '.' :: rest => if ext.isEmpty then s else String.mk rest.reverse
  | _ => s

/-- JS array indexing with a possibly negative index; out-of-range yields the
empty string, which is falsy exactly like the undefined the source gets. -/
def jsGet (l : List String) (i : Int) : String :=
  if h : 0 ≤ i ∧ i.toNat < l.length then l.get ⟨i.toNat, h.2⟩ else ""

/-- Test for the digits-only regex (at least one character, all digits). -/
def isAllDigits (s : String) : Bool :=
  s ≠ "" && s.toList.all (fun c => c.isDigit)

/-- parseInt base 10 on a digits-only string. -/
def natOfDigits (s : String) : Nat :=
  s.toList.foldl (fun a c => a * 10 + (c.toNat - 48)) 0

/-- Result record of parseAudioFileName (second adapter version: artist,
album, title, track). -/
structure ParsedName where
  artist : String
  album : String
  title : String
  track : Nat
  deriving Repr, DecidableEq

/-- The filename heuristic of the adapter: split the extension-stripped name
on the separator, read artist and album primarily from the folder structure,
and take title and track number from the trailing segments. -/
def parseAudioFileName (filename folderPath : String) : ParsedName :=
  let nameWithoutExt := stripExtension filename
  let parts := splitOnStr nameWithoutExt " - "
  let pathParts := (splitOnStr folderPath "/").filter (fun s => s ≠ "")
  let artist := jsOr (jsOr (jsGet pathParts ((pathParts.length : Int) - 2))
    (jsGet parts 0)) "Unknown Artist"
  let album := jsOr (jsOr (jsGet pathParts ((pathParts.length : Int) - 1))
    (jsGet parts 1)) "Unknown Album"
  let titleTrack :=
    if 2 ≤ parts.length then
      if 3 ≤ parts.length ∧ isAllDigits (jsGet parts ((parts.length : Int) - 2)) then
        (jsGet parts ((parts.length : Int) - 1),
          natOfDigits (jsGet parts ((parts.length : Int) - 2)))
      else
        (jsGet parts ((parts.length : Int) - 1), 0)
    else
      (nameWithoutExt, 0)
  { artist := artist, album := album, title := titleTrack.1, track := titleTrack.2 }

/-- The substring of a path before its final slash (empty when there is no
slash), as the substring with lastIndexOf in the source computes it. -/
def folderOf (p : String) : String :=
  let segs := splitOnStr p "/"
  if segs.length ≤ 1 then "" else String.intercalate "/" segs.dropLast

/-- The audio extension allowlist of the adapter. -/
def audioExtensions : List String :=
  [".mp3", ".flac", ".m4a", ".aac", ".ogg", ".wav", ".wma", ".opus"]

/-- Case-insensitive extension test on a file name. -/
def isAudioFile (filename : String) : Bool :=
  let lowerName := toLowerStr filename
  audioExtensions.any (fun e => endsWithStr lowerName e)

/-- Timestamps of a listed file (only mtime is consumed). -/
structure SynoTime where
  mtime : Nat
  deriving Repr, DecidableEq

/-- The optional additional block of a File Station listing entry. -/
structure SynoAdditional where
  time : Option SynoTime
  deriving Repr, DecidableEq

/-- One entry of the File Station listing consumed by the scan. -/
structure SynologyFile where
  path : String
  name : String
  isdir : Bool
  additional : Option SynoAdditional
  deriving Repr, DecidableEq

/-- The partial metadata record extractAudioMetadata yields: every field of
the embedded tags is optional. A fetch or parse failure makes the function
return the record with every field undefined, never throw. -/
structure TagMeta where
  artist : Option String
  album : Option String
  title : Option String
  year : Option Nat
  track : Option Nat
  duration : Option Nat
  genre : Option String
  deriving Repr, DecidableEq

/-- The defaultMetadata record returned on any extraction failure. -/
def defaultTagMeta : TagMeta :=
  { artist := none, album := none, title := none, year := none,
    track := none, duration := none, genre := none }

/-- The per-file record the scan produces (the AudioFileInfo type of the
source; picture omitted, it is never consumed by the claims or the mapping
into songs). -/
structure AudioFileInfo where
  path : String
  name : String
  artist : Option String
  album : Option String
  title : Option String
  year : Option Nat
  track : Option Nat
  mtime : Nat
  duration : Option Nat
  genre : Option String
  deriving Repr, DecidableEq

/-- JS or with two optional numbers (0 is falsy). -/
def jsOrOptNat2 (a b : Option Nat) : Option Nat :=
  match a with
  | none => b
  | some n => if n = 0 then b else some n

/-- Processing of one in-cap file inside findAudioFiles: tag extraction
(modelled by the oracle, which absorbs the network fetch, the byte-range
read, the metadata cache and the parse, and yields defaultTagMeta on any
failure), then the filename fallback, combined field by field with JS or.
The now argument stands for Date.now(). -/
def processFile (oracle : String → TagMeta) (now : Nat) (file : SynologyFile) :
    AudioFileInfo :=
  let folderPath := folderOf file.path
  let metadata := oracle file.path
  let fallback := parseAudioFileName file.name folderPath
  let filenameWithoutExt := stripExtension file.name
  { path := file.path
    name := file.name
    artist := some (jsOrOptStr (jsOrOpt metadata.artist (some fallback.artist))
      "Unknown Artist")
    album := some (jsOrOptStr (jsOrOpt metadata.album (some fallback.album))
      "Unknown Album")
    title := some (jsOrOptStr (jsOrOpt metadata.title (some fallback.title))
      filenameWithoutExt)
    track := some (jsOrOptNat metadata.track fallback.track)
    year := jsOrOptNat2 metadata.year none
    duration := metadata.duration
    genre := metadata.genre
    mtime := jsOrOptNat ((file.additional.bind SynoAdditional.time).map SynoTime.mtime)
      now }

/-- The entry built for a file beyond the extraction cap (and in the dead
per-file catch branch): filename heuristic only, no duration, no year, no
genre. -/
def fallbackInfo (now : Nat) (file : SynologyFile) : AudioFileInfo :=
  let folderPath := folderOf file.path
  let fallback := parseAudioFileName file.name folderPath
  { path := file.path
    name := file.name
    artist := some fallback.artist
    album := some fallback.album
    title := some fallback.title
    track := some fallback.track
    year := none
    duration := none
    genre := none
    mtime := jsOrOptNat ((file.additional.bind SynoAdditional.time).map SynoTime.mtime)
      now }

/-- The extraction cap of findAudioFiles. -/
def maxFiles : Nat := 50

/-- The scan over a listing: keep the non-directory audio files, give tag
extraction to the first maxFiles of them in listing order (the batches of 5
awaited together preserve that order) and the filename fallback to the rest.
The files argument models the recursive File Station listing result. -/
def findAudioFiles (files : List SynologyFile) (oracle : String → TagMeta)
    (now : Nat) : List AudioFileInfo :=
  let audioFileList := files.filter (fun f => !f.isdir && isAudioFile f.name)
  let filesToProcess := audioFileList.take maxFiles
  let processed := filesToProcess.map (processFile oracle now)
  let remaining := audioFileList.drop maxFiles
  processed ++ remaining.map (fallbackInfo now)

/-- Hex digit (uppercase) for percent-encoding. -/
def hexDigit (n : Nat) : Char :=
  if n < 10 then Char.ofNat (48 + n) else Char.ofNat (55 + n)

/-- Characters encodeURIComponent leaves as-is. -/
def uriUnescaped (c : Char) : Bool :=
  c.isAlphanum || c ∈ ['-', '_', '.', '!', '~', '*', '\'', '(', ')']

/-- Percent-encoding of one byte. -/
def percentByte (b : Nat) : String :=
  String.mk ['%', hexDigit (b / 16), hexDigit (b % 16)]

/-- encodeURIComponent: percent-encode the UTF-8 bytes of every character
outside the unescaped set. -/
def encodeURIComponent (s : String) : String :=
  s.toList.foldr
    (fun c acc =>
      (if uriUnescaped c then String.mk [c]
       else String.join ((charUtf8 c).map percentByte)) ++ acc)
    ""

/-- The five-tier download URL list for a file. -/
def getFileDownloadUrl (filePath baseUrl sessionId : String) : List QualityLink :=
  let downloadUrl := baseUrl ++
    "/webapi/entry.cgi?api=SYNO.FileStation.Download&version=2&method=download&path=" ++
    encodeURIComponent filePath ++ "&_sid=" ++ sessionId
  [ { quality := "poor", link := downloadUrl },
    { quality := "low", link := downloadUrl },
    { quality := "medium", link := downloadUrl },
    { quality := "high", link := downloadUrl },
    { quality := "excellent", link := downloadUrl } ]

/-- The placeholder image variants. -/
def getSynologyImageUrl : List QualityLink :=
  let placeholder := "/images/placeholder/album.jpg"
  [ { quality := "50x50", link := placeholder },
    { quality := "150x150", link := placeholder },
    { quality := "500x500", link := placeholder } ]

/-- The Song record mapFileToSong builds (fields as set by the source; the
id is kept as its character list). -/
structure Song where
  id : List Char
  name : String
  subtitle : String
  type : String
  image : List QualityLink
  download_url : List QualityLink
  url : String
  album : String
  primary_artists : String
  singers : String
  language : String
  duration : Nat
  year : Nat
  play_count : String
  release_date : String
  explicit : Bool
  vlink : String
  triller_available : Bool
  deriving Repr, DecidableEq

/-- mapFileToSong of the metadata-aware adapter version: URL-safe base64 id
of the path, tag metadata when available, filename fallback otherwise. The
index parameter is accepted and unused, as in the source. -/
def mapFileToSong (file : AudioFileInfo) (baseUrl sessionId : String)
    (_index : Nat := 0) : Song :=
  let fileId := encodeFileId (utf8Bytes file.path)
  let songName := jsOrOptStr file.title (stripExtension file.name)
  let artistName := jsOrOptStr file.artist "Unknown Artist"
  let albumName := jsOrOptStr file.album "Unknown Album"
  let duration := jsOrOptNat file.duration 0
  { id := fileId
    name := songName
    subtitle := artistName
    type := "song"
    image := getSynologyImageUrl
    download_url := getFileDownloadUrl file.path baseUrl sessionId
    url := "/song/" ++ String.mk fileId
    album := albumName
    primary_artists := artistName
    singers := artistName
    language := "unknown"
    duration := duration
    year := jsOrOptNat file.year 0
    play_count := "0"
    release_date := jsOrOptStr (file.year.map (fun y => toString y)) ""
    explicit := false
    vlink := ""
    triller_available := false }

/-- First-occurrence-ordered distinct keys, as iterating a JS Map built by
insertion yields them. -/
def insertionKeys (l : List String) : List String :=
  l.foldl (fun acc a => if a ∈ acc then acc else acc ++ [a]) []

/-- Artist entry of the searchAll bundle (note the id uses the stripped
base64 while the url embeds the URL-safe token). -/
structure ArtistEntry where
  explicit : Bool
  id : List Char
  name : String
  subtitle : String
  type : String
  image : List QualityLink
  url : String
  deriving Repr, DecidableEq

/-- Album entry of the searchAll bundle. -/
structure AlbumEntry where
  explicit : Bool
  id : List Char
  name : String
  subtitle : String
  type : String
  image : List QualityLink
  url : String
  year : String
  language : String
  deriving Repr, DecidableEq

/-- The AllSearch bundle searchAll returns; playlists and shows are always
empty, their element type is irrelevant. -/
structure AllSearch where
  songs : SearchSection Song
  albums : SearchSection AlbumEntry
  artists : SearchSection ArtistEntry
  playlists : SearchSection Unit
  shows : SearchSection Unit
  deriving Repr, DecidableEq

/-- The match predicate of searchAll over one scanned file. -/
def searchMatches (queryLower : String) (file : AudioFileInfo) : Bool :=
  jsIncludes (toLowerStr file.name) queryLower ||
    (match file.artist with
     | some a => jsIncludes (toLowerStr a) queryLower
     | none => false) ||
    (match file.album with
     | some a => jsIncludes (toLowerStr a) queryLower
     | none => false) ||
    (match file.title with
     | some t => jsIncludes (toLowerStr t) queryLower
     | none => false)

/-- searchAll of the file-index adapter (success path; the catch branch
returns the all-zero bundle with the same invariants). The allFiles argument
models the findAudioFiles result. -/
def searchAll (allFiles : List AudioFileInfo) (query : String)
    (baseUrl sessionId : String) : AllSearch :=
  let queryLower := toLowerStr query
  let matchingFiles := allFiles.filter (searchMatches queryLower)
  let songs := (matchingFiles.take 20).enum.map
    (fun p => mapFileToSong p.2 baseUrl sessionId p.1)
  let artistKeys := insertionKeys
    (matchingFiles.map (fun f => jsOrOptStr f.artist "Unknown Artist"))
  let artists := (artistKeys.take 20).map (fun artist =>
    { explicit := false
      id := strippedB64Id (utf8Bytes artist)
      name := artist
      subtitle := ""
      type := "artist"
      image := getSynologyImageUrl
      url := "/artist/" ++ String.mk (encodeFileId (utf8Bytes artist)) : ArtistEntry })
  let albumKeys := insertionKeys
    (matchingFiles.map (fun f => jsOrOptStr f.album "Unknown Album"))
  let albums := (albumKeys.take 20).map (fun album =>
    { explicit := false
      id := encodeFileId (utf8Bytes album)
      name := album
      subtitle := jsOrOptStr
        ((matchingFiles.find? (fun f => f.album = some album)).bind
          (fun f => f.artist)) "Unknown Artist"
      type := "album"
      image := getSynologyImageUrl
      url := "/album/" ++ String.mk (encodeFileId (utf8Bytes album))
      year := ""
      language := "unknown" : AlbumEntry })
  { songs := { count := songs.length, last_page := true, data := songs }
    albums := { count := albums.length, last_page := true, data := albums }
    artists := { count := artists.length, last_page := true, data := artists }
    playlists := { count := 0, last_page := true, data := [] }
    shows := { count := 0, last_page := true, data := [] } }

/-- The album entry getArtistDetails builds for each grouped album of an
artist: the id is the stripped base64 of the album name alone while the url
embeds the URL-safe token of the artist-album composite key. -/
def artistDetailAlbumEntry (artistName albumName : String) : AlbumEntry :=
  { explicit := false
    id := strippedB64Id (utf8Bytes albumName)
    name := albumName
    subtitle := artistName
    type := "album"
    image := getSynologyImageUrl
    url := "/album/" ++
      String.mk (encodeFileId (utf8Bytes (artistName ++ "-" ++ albumName)))
    year := ""
    language := "unknown" }

/-- The configuration check every Synology operation begins with: presence
of the three connection variables, else a thrown error. -/
def checkSynologyConfigured (e : Env) : Except String Unit :=
  if jsTruthy e.SYNOLOGY_SERVER_URL && jsTruthy e.SYNOLOGY_USERNAME &&
      jsTruthy e.SYNOLOGY_PASSWORD then
    Except.ok ()
  else
    Except.error "Synology NAS is not configured"

/-- A name plus link entry of the navigation menus. -/
structure MenuLink where
  name : String
  url : String
  deriving Repr, DecidableEq

/-- The mega menu shape. -/
structure MegaMenu where
  top_artists : List MenuLink
  top_playlists : List MenuLink
  new_releases : List MenuLink
  deriving Repr, DecidableEq

/-- The Synology getMegaMenu stub: configuration check, then fixed empty
lists. -/
def getMegaMenu (e : Env) : Except String MegaMenu :=
  (checkSynologyConfigured e).map (fun _ =>
    { top_artists := [], top_playlists := [], new_releases := [] })

/-- A footer link entry. -/
structure FooterLink where
  id : String
  title : String
  action : String
  deriving Repr, DecidableEq

/-- The footer details shape. -/
structure FooterDetails where
  artist : List FooterLink
  actor : List FooterLink
  album : List FooterLink
  playlist : List FooterLink
  deriving Repr, DecidableEq

/-- The Synology getFooterDetails stub. -/
def getFooterDetails (e : Env) : Except String FooterDetails :=
  (checkSynologyConfigured e).map (fun _ =>
    { artist := [], actor := [], album := [], playlist := [] })

end Synology

/-!
## Home-media (Plex) adapter

Each exported operation wraps its whole body in a try/catch. The awaited
plexApiCall results are passed as Except arguments; an error value stands for
any failing step (missing configuration, non-2xx response, rejected fetch).
The Option result of getHomeData, getAlbumDetails and getArtistDetails
distinguishes the mapped record (some) from the bare empty object the catch
and the missing-item early returns produce (none).
-/

namespace Plex

/-- The image and stream URL union shape: the adapter returns either the
empty string or a list of quality tiers. -/
inductive Quality where
  | str : String → Quality
  | tiers : List QualityLink → Quality
  deriving Repr, DecidableEq

/-- One part of a media entry. -/
structure PlexPart where
  key : String
  file : String
  deriving Repr, DecidableEq

/-- One media entry of a track. -/
structure PlexMedia where
  parts : List PlexPart
  deriving Repr, DecidableEq

/-- The fields of a Plex track the adapter consumes. The optional media
array is modelled as a list: an absent array and an empty one behave
identically under the optional-chaining access. -/
structure PlexTrack where
  ratingKey : String
  title : String
  parentKey : String
  parentTitle : String
  grandparentKey : String
  grandparentTitle : String
  thumb : Option String
  grandparentThumb : Option String
  year : Option Nat
  duration : Nat
  viewCount : Option Nat
  summary : Option String
  media : List PlexMedia
  originalTitle : Option String
  deriving Repr, DecidableEq

/-- The fields of a Plex album the adapter consumes. -/
structure PlexAlbum where
  ratingKey : String
  title : String
  parentTitle : Option String
  thumb : Option String
  art : Option String
  year : Option Nat
  summary : Option String
  childCount : Option Nat
  viewedLeafCount : Option Nat
  deriving Repr, DecidableEq

/-- The fields of a Plex artist the adapter consumes. -/
structure PlexArtist where
  ratingKey : String
  title : String
  thumb : Option String
  art : Option String
  deriving Repr, DecidableEq

/-- The fields of a Plex playlist the adapter consumes. -/
structure PlexPlaylist where
  ratingKey : String
  title : String
  thumb : Option String
  leafCount : Option Nat
  duration : Option Nat
  deriving Repr, DecidableEq

/-- A library section entry. -/
structure PlexSection where
  key : String
  type : String
  title : String
  deriving Repr, DecidableEq

/-- The MediaContainer payload: the Metadata array may be absent. -/
structure PlexContainer (α : Type) where
  metadata : Option (List α)
  deriving Repr, DecidableEq

/-- The possibly-absent Metadata array, defaulted to the empty list as the
source does with JS or. -/
def jsArr (o : Option (List α)) : List α :=
  o.getD []

/-- Removal of the first occurrence of a pattern, as the JS string replace
with a string pattern and empty replacement does. -/
def removeFirstOccur (s pat : String) : String :=
  if pat = "" then s
  else
    match splitOnStr s pat with
    | [] => s
    | [x] => x
    | x :: rest => x ++ String.intercalate pat rest

/-- Resolution of the music library section id: first section of type artist
or album, its key with the sections route stripped, with "1" both as catch
fallback and as falsy fallback. -/
def getMusicLibrarySectionId
    (sections : Except String (PlexContainer PlexSection)) : String :=
  match sections with
  | Except.error _ => "1"
  | Except.ok data =>
      match (jsArr data.metadata).find?
          (fun s => s.type = "artist" || s.type = "album") with
      | none => "1"
      | some sec => jsOr (removeFirstOccur sec.key "/library/sections/") "1"

/-- Image URL construction: empty string on a falsy thumb, a three-tier list
with the token appended otherwise. -/
def getPlexImageUrl (thumb : Option String) (baseUrl token : String) : Quality :=
  if ¬ jsTruthy thumb then Quality.str ""
  else
    let imageUrl := baseUrl ++ thumb.getD "" ++ "?X-Plex-Token=" ++ token
    Quality.tiers
      [ { quality := "low", link := imageUrl },
        { quality := "medium", link := imageUrl },
        { quality := "high", link := imageUrl } ]

/-- Stream URL construction. -/
def getPlexStreamUrl (partKey baseUrl token : String) : String :=
  baseUrl ++ partKey ++ "?X-Plex-Token=" ++ token

/-- The rights object mapPlexTrackToSong embeds. -/
structure Rights where
  code : Nat
  reason : String
  cacheable : Bool
  delete_cached_object : Bool
  deriving Repr, DecidableEq

/-- A primary-artist entry of the artist map. -/
structure ArtistMini where
  id : String
  name : String
  role : String
  image : Quality
  url : String
  type : String
  deriving Repr, DecidableEq

/-- The artist map object. -/
structure ArtistMap where
  primary_artists : List ArtistMini
  artists : List ArtistMini
  featured_artists : List ArtistMini
  deriving Repr, DecidableEq

/-- The Song record mapPlexTrackToSong builds (kbps320 stands for the JSON
field whose name starts with 320). -/
structure Song where
  id : String
  name : String
  subtitle : String
  header_desc : String
  type : String
  url : String
  image : Quality
  language : String
  year : Nat
  play_count : Nat
  explicit : Bool
  list : String
  list_type : String
  list_count : Nat
  music : String
  song : String
  album : String
  album_id : String
  album_url : String
  label : String
  label_url : String
  origin : String
  is_dolby_content : Bool
  kbps320 : Bool
  download_url : List QualityLink
  duration : Nat
  rights : Rights
  has_lyrics : Bool
  lyrics_snippet : String
  starred : Bool
  copyright_text : String
  artist_map : ArtistMap
  vcode : String
  vlink : String
  triller_available : Bool
  deriving Repr, DecidableEq

/-- Track to Song mapping; the upstream duration in milliseconds becomes
whole seconds by floor division (a JS or with 0 on a number is the identity
in the Nat model). -/
def mapPlexTrackToSong (plexTrack : PlexTrack) (baseUrl token : String)
    (index : Nat := 0) : Song :=
  let partKey := jsOrOptStr
    (((plexTrack.media.head?).bind (fun m => m.parts.head?)).map
      (fun p => p.key)) ""
  let streamUrl := if partKey ≠ "" then getPlexStreamUrl partKey baseUrl token else ""
  { id := jsOr plexTrack.ratingKey ("song-" ++ toString index)
    name := jsOr plexTrack.title "Unknown"
    subtitle := jsOrOptStr (jsOrOpt (some plexTrack.grandparentTitle)
      plexTrack.originalTitle) ""
    header_desc := jsOrOptStr plexTrack.summary ""
    type := "song"
    url := "/song/" ++ jsOr plexTrack.ratingKey (toString index)
    image := getPlexImageUrl (jsOrOpt plexTrack.thumb plexTrack.grandparentThumb)
      baseUrl token
    language := "unknown"
    year := jsOrOptNat plexTrack.year 0
    play_count := jsOrOptNat plexTrack.viewCount 0
    explicit := false
    list := ""
    list_type := ""
    list_count := 0
    music := streamUrl
    song := streamUrl
    album := jsOr plexTrack.parentTitle ""
    album_id := jsOr plexTrack.parentKey ""
    album_url := "/album/" ++ jsOr plexTrack.parentKey ""
    label := ""
    label_url := ""
    origin := ""
    is_dolby_content := false
    kbps320 := true
    download_url :=
      [ { quality := "poor", link := streamUrl },
        { quality := "low", link := streamUrl },
        { quality := "medium", link := streamUrl },
        { quality := "high", link := streamUrl },
        { quality := "excellent", link := streamUrl } ]
    duration := plexTrack.duration / 1000
    rights := { code := 0, reason := "", cacheable := true, delete_cached_object := false }
    has_lyrics := false
    lyrics_snippet := ""
    starred := false
    copyright_text := ""
    artist_map :=
      { primary_artists :=
          if plexTrack.grandparentTitle ≠ "" then
            [ { id := jsOr plexTrack.grandparentKey ""
                name := plexTrack.grandparentTitle
                role := "primary_artist"
                image := getPlexImageUrl plexTrack.grandparentThumb baseUrl token
                url := "/artist/" ++ jsOr plexTrack.grandparentKey ""
                type := "artist" } ]
          else []
        artists := []
        featured_artists := [] }
    vcode := ""
    vlink := ""
    triller_available := false }

/-- One home module section. -/
structure ModulesSection (α : Type) where
  title : String
  subtitle : String
  position : Nat
  source : String
  data : List α
  deriving Repr, DecidableEq

/-- An artist card of the home data. -/
structure ArtistCard where
  explicit : Bool
  id : String
  image : Quality
  url : String
  subtitle : String
  name : String
  type : String
  featured_station_type : String
  query : String
  station_display_text : String
  deriving Repr, DecidableEq

/-- The object-shaped download url of a playlist card. -/
structure DownloadTiers where
  low : String
  medium : String
  high : String
  deriving Repr, DecidableEq

/-- The rights object of a playlist card (a different shape from the track
rights). -/
structure RightsB where
  code : Nat
  reason : String
  cache : String
  deriving Repr, DecidableEq

/-- A playlist card of the home data. -/
structure PlaylistCard where
  explicit : Bool
  id : String
  name : String
  subtitle : String
  type : String
  url : String
  image : Quality
  language : String
  year : Nat
  play_count : Nat
  list_count : Nat
  list_type : String
  music : String
  album : String
  album_id : String
  album_url : String
  label : String
  label_url : String
  origin : String
  is_dolby_content : Bool
  kbps320 : Bool
  download_url : DownloadTiers
  duration : Nat
  rights : RightsB
  has_lyrics : Bool
  lyrics_snippet : String
  starred : Bool
  copyright_text : String
  artist_map : ArtistMap
  vcode : String
  vlink : String
  triller_available : Bool
  deriving Repr, DecidableEq

/-- The global config object (two empty maps). -/
structure GlobalConfig where
  random_songs_listid : Unit
  weekly_top_songs_listid : Unit
  deriving Repr, DecidableEq

/-- The modules record the success path of getHomeData builds; the sections
whose data is always empty use the uninhabited-element list type Unit. -/
structure Modules where
  trending : ModulesSection Song
  artist_recos : ModulesSection ArtistCard
  playlists : ModulesSection PlaylistCard
  albums : ModulesSection Unit
  charts : ModulesSection Unit
  radio : ModulesSection Unit
  mixes : ModulesSection Unit
  discover : ModulesSection Unit
  global_config : GlobalConfig
  deriving Repr, DecidableEq

/-- getHomeData: section discovery (with its internal catch), three listing
calls, mapping into the modules record; any step failure is caught and the
bare empty object (none) is returned. -/
def getHomeData (e : Env)
    (sections : Except String (PlexContainer PlexSection))
    (recentlyAdded : Except String (PlexContainer PlexTrack))
    (artists : Except String (PlexContainer PlexArtist))
    (playlists : Except String (PlexContainer PlexPlaylist)) :
    Option Modules :=
  let baseUrl := jsOrOptStr e.PLEX_URL ""
  let token := jsOrOptStr e.PLEX_TOKEN ""
  let _sectionId := getMusicLibrarySectionId sections
  match recentlyAdded, artists, playlists with
  | Except.ok recentlyAdded, Except.ok artists, Except.ok playlists =>
      let tracks := jsArr recentlyAdded.metadata
      let mappedSongs := tracks.enum.map
        (fun p => mapPlexTrackToSong p.2 baseUrl token p.1)
      let mappedArtists := (jsArr artists.metadata).map (fun artist =>
        { explicit := false
          id := artist.ratingKey
          image := getPlexImageUrl (jsOrOpt artist.thumb artist.art) baseUrl token
          url := "/artist/" ++ artist.ratingKey
          subtitle := ""
          name := artist.title
          type := "artist"
          featured_station_type := "artist"
          query := artist.title
          station_display_text := artist.title : ArtistCard })
      let mappedPlaylists := (jsArr playlists.metadata).map (fun playlist =>
        { explicit := false
          id := playlist.ratingKey
          name := playlist.title
          subtitle := ""
          type := "playlist"
          url := "/playlist/" ++ playlist.ratingKey
          image := getPlexImageUrl playlist.thumb baseUrl token
          language := "unknown"
          year := 0
          play_count := 0
          list_count := jsOrOptNat playlist.leafCount 0
          list_type := "playlist"
          music := ""
          album := ""
          album_id := ""
          album_url := ""
          label := ""
          label_url := ""
          origin := ""
          is_dolby_content := false
          kbps320 := false
          download_url := { low := "", medium := "", high := "" }
          duration := jsOrOptNat playlist.duration 0
          rights := { code := 0, reason := "", cache := "" }
          has_lyrics := false
          lyrics_snippet := ""
          starred := false
          copyright_text := ""
          artist_map := { primary_artists := [], artists := [], featured_artists := [] }
          vcode := ""
          vlink := ""
          triller_available := false : PlaylistCard })
      some
        { trending :=
            { title := "Recently Added", subtitle := "Latest music in your library",
              position := 1, source := "plex", data := mappedSongs.take 20 }
          artist_recos :=
            { title := "Artists", subtitle := "Browse by artist",
              position := 2, source := "plex", data := mappedArtists }
          playlists :=
            { title := "Playlists", subtitle := "Your music playlists",
              position := 3, source := "plex", data := mappedPlaylists }
          albums :=
            { title := "Albums", subtitle := "Browse albums",
              position := 4, source := "plex", data := [] }
          charts :=
            { title := "Charts", subtitle := "Popular music",
              position := 5, source := "plex", data := [] }
          radio :=
            { title := "Radio", subtitle := "Radio stations",
              position := 6, source := "plex", data := [] }
          mixes :=
            { title := "Mixes", subtitle := "Music mixes",
              position := 7, source := "plex", data := [] }
          discover :=
            { title := "Discover", subtitle := "Discover new music",
              position := 8, source := "plex", data := [] }
          global_config :=
            { random_songs_listid := (), weekly_top_songs_listid := () } }
  | _, _, _ => none

/-- The song-detail payload. -/
structure SongObj where
  songs : List Song
  deriving Repr, DecidableEq

/-- getSongDetails: metadata-by-id call, first entry mapped; a failure or a
missing entry yields the empty songs list. -/
def getSongDetails (e : Env)
    (data : Except String (PlexContainer PlexTrack)) : SongObj :=
  let baseUrl := jsOrOptStr e.PLEX_URL ""
  let plexToken := jsOrOptStr e.PLEX_TOKEN ""
  match data with
  | Except.error _ => { songs := [] }
  | Except.ok d =>
      match (jsArr d.metadata).head? with
      | none => { songs := [] }
      | some track => { songs := [mapPlexTrackToSong track baseUrl plexToken] }

/-- A parameter record of an album module description. -/
structure ModuleDescId where
  id : String
  deriving Repr, DecidableEq

/-- Type/language parameters of an album module description. -/
structure ModuleDescTL where
  type : String
  lang : String
  deriving Repr, DecidableEq

/-- Year/language parameters of an album module description. -/
structure ModuleDescYL where
  year : String
  lang : String
  deriving Repr, DecidableEq

/-- A module description entry with parameters of type π. -/
structure ModuleDesc (π : Type) where
  source : String
  position : Nat
  title : String
  subtitle : String
  params : π
  deriving Repr, DecidableEq

/-- The modules block of an album. -/
structure AlbumModules where
  recommend : ModuleDesc ModuleDescId
  currently_trending : ModuleDesc ModuleDescTL
  top_albums_from_same_year : ModuleDesc ModuleDescYL
  artists : ModuleDesc Unit
  deriving Repr, DecidableEq

/-- The album record the success path of getAlbumDetails builds. -/
structure Album where
  explicit : Bool
  id : String
  image : Quality
  url : String
  subtitle : String
  name : String
  type : String
  header_desc : String
  language : String
  play_count : Nat
  duration : Nat
  year : Nat
  list_count : Nat
  list_type : String
  artist_map : ArtistMap
  song_count : Nat
  label_url : String
  copyright_text : String
  is_dolby_content : Bool
  songs : List Song
  modules : AlbumModules
  deriving Repr, DecidableEq

/-- getAlbumDetails: album metadata then children tracks; a failing step or
a missing album yields the bare empty object (none). -/
def getAlbumDetails (e : Env)
    (albumData : Except String (PlexContainer PlexAlbum))
    (tracksData : Except String (PlexContainer PlexTrack)) : Option Album :=
  let baseUrl := jsOrOptStr e.PLEX_URL ""
  let plexToken := jsOrOptStr e.PLEX_TOKEN ""
  match albumData with
  | Except.error _ => none
  | Except.ok ad =>
      match (jsArr ad.metadata).head? with
      | none => none
      | some album =>
          match tracksData with
          | Except.error _ => none
          | Except.ok td =>
              let tracks := (jsArr td.metadata).enum.map
                (fun p => mapPlexTrackToSong p.2 baseUrl plexToken p.1)
              some
                { explicit := false
                  id := album.ratingKey
                  image := getPlexImageUrl (jsOrOpt album.thumb album.art)
                    baseUrl plexToken
                  url := "/album/" ++ album.ratingKey
                  subtitle := jsOrOptStr album.parentTitle ""
                  name := album.title
                  type := "album"
                  header_desc := jsOrOptStr album.summary ""
                  language := "unknown"
                  play_count := jsOrOptNat album.viewedLeafCount 0
                  duration := 0
                  year := jsOrOptNat album.year 0
                  list_count := jsOrOptNat album.childCount 0
                  list_type := "album"
                  artist_map := { primary_artists := [], artists := [], featured_artists := [] }
                  song_count := jsOrOptNat album.childCount tracks.length
                  label_url := ""
                  copyright_text := ""
                  is_dolby_content := false
                  songs := tracks
                  modules :=
                    { recommend :=
                        { source := "plex", position := 1, title := "Recommended",
                          subtitle := "", params := { id := album.ratingKey } }
                      currently_trending :=
                        { source := "plex", position := 2, title := "Trending",
                          subtitle := "",
                          params := { type := "album", lang := "unknown" } }
                      top_albums_from_same_year :=
                        { source := "plex", position := 3, title := "Same Year",
                          subtitle := "",
                          params := { year := toString (jsOrOptNat album.year 0), lang := "unknown" } }
                      artists :=
                        { source := "plex", position := 4, title := "Artists",
                          subtitle := "", params := () } } }

/-- The urls block of an artist. -/
structure ArtistUrls where
  albums : String
  bio : String
  comments : String
  songs : String
  deriving Repr, DecidableEq

/-- One artist module entry. -/
structure ArtistModuleEntry where
  title : String
  subtitle : String
  source : String
  position : Nat
  deriving Repr, DecidableEq

/-- The modules block of an artist. -/
structure ArtistModules where
  top_songs : ArtistModuleEntry
  latest_release : ArtistModuleEntry
  top_albums : ArtistModuleEntry
  dedicated_artist_playlist : ArtistModuleEntry
  featured_artist_playlist : ArtistModuleEntry
  singles : ArtistModuleEntry
  similar_artists : ArtistModuleEntry
  deriving Repr, DecidableEq

/-- The artist record the success path of getArtistDetails builds; the list
fields that are always empty use the element type Unit. -/
structure Artist where
  id : String
  name : String
  subtitle : String
  image : Quality
  follower_count : Nat
  type : String
  is_verified : Bool
  dominant_language : String
  dominant_type : String
  top_songs : List Song
  top_albums : List Album
  dedicated_artist_playlist : List Unit
  featured_artist_playlist : List Unit
  singles : List Unit
  latest_release : List Unit
  similar_artists : List Unit
  is_radio_present : Bool
  bio : List Unit
  dob : String
  fb : String
  twitter : String
  wiki : String
  urls : ArtistUrls
  available_languages : List Unit
  fan_count : Nat
  is_followed : Bool
  modules : ArtistModules
  deriving Repr, DecidableEq

/-- getArtistDetails: artist metadata then children albums (first ten); a
failing step or a missing artist yields the bare empty object (none). -/
def getArtistDetails (e : Env)
    (artistData : Except String (PlexContainer PlexArtist))
    (albumsData : Except String (PlexContainer PlexAlbum)) : Option Artist :=
  let baseUrl := jsOrOptStr e.PLEX_URL ""
  let plexToken := jsOrOptStr e.PLEX_TOKEN ""
  match artistData with
  | Except.error _ => none
  | Except.ok d =>
      match (jsArr d.metadata).head? with
      | none => none
      | some artist =>
          match albumsData with
          | Except.error _ => none
          | Except.ok ad =>
              let albums := ((jsArr ad.metadata).take 10).map (fun album =>
                { explicit := false
                  id := album.ratingKey
                  image := getPlexImageUrl (jsOrOpt album.thumb album.art)
                    baseUrl plexToken
                  url := "/album/" ++ album.ratingKey
                  subtitle := ""
                  name := album.title
                  type := "album"
                  header_desc := jsOrOptStr album.summary ""
                  language := "unknown"
                  play_count := 0
                  duration := 0
                  year := jsOrOptNat album.year 0
                  list_count := jsOrOptNat album.childCount 0
                  list_type := "album"
                  artist_map := { primary_artists := [], artists := [], featured_artists := [] }
                  song_count := jsOrOptNat album.childCount 0
                  label_url := ""
                  copyright_text := ""
                  is_dolby_content := false
                  songs := []
                  modules :=
                    { recommend :=
                        { source := "plex", position := 1, title := "",
                          subtitle := "", params := { id := "" } }
                      currently_trending :=
                        { source := "plex", position := 2, title := "",
                          subtitle := "", params := { type := "", lang := "" } }
                      top_albums_from_same_year :=
                        { source := "plex", position := 3, title := "",
                          subtitle := "", params := { year := "", lang := "" } }
                      artists :=
                        { source := "plex", position := 4, title := "",
                          subtitle := "", params := () } } : Album })
              some
                { id := artist.ratingKey
                  name := artist.title
                  subtitle := ""
                  image := getPlexImageUrl (jsOrOpt artist.thumb artist.art)
                    baseUrl plexToken
                  follower_count := 0
                  type := "artist"
                  is_verified := false
                  dominant_language := "unknown"
                  dominant_type := "artist"
                  top_songs := []
                  top_albums := albums
                  dedicated_artist_playlist := []
                  featured_artist_playlist := []
                  singles := []
                  latest_release := []
                  similar_artists := []
                  is_radio_present := false
                  bio := []
                  dob := ""
                  fb := ""
                  twitter := ""
                  wiki := ""
                  urls := { albums := "", bio := "", comments := "", songs := "" }
                  available_languages := []
                  fan_count := 0
                  is_followed := false
                  modules :=
                    { top_songs := { title := "", subtitle := "", source := "", position := 1 }
                      latest_release := { title := "", subtitle := "", source := "", position := 2 }
                      top_albums := { title := "", subtitle := "", source := "", position := 3 }
                      dedicated_artist_playlist := { title := "", subtitle := "", source := "", position := 4 }
                      featured_artist_playlist := { title := "", subtitle := "", source := "", position := 5 }
                      singles := { title := "", subtitle := "", source := "", position := 6 }
                      similar_artists := { title := "", subtitle := "", source := "", position := 7 } } }

/-- One untyped item of the library search response, discriminated by its
type field; the optional fields cover the track, album and artist views the
source casts it to. -/
structure SearchItem where
  type : String
  ratingKey : String
  title : String
  parentTitle : Option String
  grandparentTitle : Option String
  thumb : Option String
  art : Option String
  grandparentThumb : Option String
  year : Option Nat
  deriving Repr, DecidableEq

/-- A song entry of the search bundle. -/
structure SearchSongEntry where
  id : String
  name : String
  subtitle : String
  album : String
  url : String
  type : String
  position : Nat
  primary_artists : String
  singers : String
  language : String
  image : Quality
  deriving Repr, DecidableEq

/-- An album entry of the search bundle. -/
structure SearchAlbumEntry where
  id : String
  name : String
  subtitle : String
  image : Quality
  music : String
  url : String
  type : String
  position : Nat
  year : Nat
  is_movie : Bool
  language : String
  song_pids : String
  deriving Repr, DecidableEq

/-- An artist entry of the search bundle. -/
structure SearchArtistEntry where
  id : String
  name : String
  image : Quality
  extra : String
  url : String
  type : String
  subtitle : String
  entity : Nat
  position : Nat
  deriving Repr, DecidableEq

/-- The search bundle of the Plex adapter (it also carries a top_query
collection). -/
structure PlexAllSearch where
  songs : SearchSection SearchSongEntry
  albums : SearchSection SearchAlbumEntry
  artists : SearchSection SearchArtistEntry
  playlists : SearchSection Unit
  top_query : SearchSection Unit
  shows : SearchSection Unit
  deriving Repr, DecidableEq

/-- The empty search bundle of the catch branch. -/
def emptyPlexAllSearch : PlexAllSearch :=
  { songs := { count := 0, last_page := true, data := [] }
    albums := { count := 0, last_page := true, data := [] }
    artists := { count := 0, last_page := true, data := [] }
    playlists := { count := 0, last_page := true, data := [] }
    top_query := { count := 0, last_page := true, data := [] }
    shows := { count := 0, last_page := true, data := [] } }

/-- searchAll: one library search call, items split by their type field and
mapped; any failure yields the structurally valid zero bundle. -/
def searchAll (e : Env)
    (_sections : Except String (PlexContainer PlexSection))
    (results : Except String (PlexContainer SearchItem)) : PlexAllSearch :=
  let baseUrl := jsOrOptStr e.PLEX_URL ""
  let plexToken := jsOrOptStr e.PLEX_TOKEN ""
  match results with
  | Except.error _ => emptyPlexAllSearch
  | Except.ok r =>
      let items := jsArr r.metadata
      let tracks := items.filter (fun i => i.type = "track")
      let albums := items.filter (fun i => i.type = "album")
      let artists := items.filter (fun i => i.type = "artist")
      let songEntries := tracks.enum.map (fun p =>
        { id := p.2.ratingKey
          name := p.2.title
          subtitle := jsOrOptStr p.2.grandparentTitle ""
          album := jsOrOptStr p.2.parentTitle ""
          url := "/song/" ++ p.2.ratingKey
          type := "song"
          position := p.1
          primary_artists := jsOrOptStr p.2.grandparentTitle ""
          singers := jsOrOptStr p.2.grandparentTitle ""
          language := "unknown"
          image := getPlexImageUrl (jsOrOpt p.2.thumb p.2.grandparentThumb)
            baseUrl plexToken : SearchSongEntry })
      let albumEntries := albums.enum.map (fun p =>
        { id := p.2.ratingKey
          name := p.2.title
          subtitle := ""
          image := getPlexImageUrl (jsOrOpt p.2.thumb p.2.art) baseUrl plexToken
          music := ""
          url := "/album/" ++ p.2.ratingKey
          type := "album"
          position := p.1
          year := jsOrOptNat p.2.year 0
          is_movie := false
          language := "unknown"
          song_pids := "" : SearchAlbumEntry })
      let artistEntries := artists.enum.map (fun p =>
        { id := p.2.ratingKey
          name := p.2.title
          image := getPlexImageUrl (jsOrOpt p.2.thumb p.2.art) baseUrl plexToken
          extra := ""
          url := "/artist/" ++ p.2.ratingKey
          type := "artist"
          subtitle := ""
          entity := 0
          position := p.1 : SearchArtistEntry })
      { songs := { count := tracks.length, last_page := true, data := songEntries }
        albums := { count := albums.length, last_page := true, data := albumEntries }
        artists := { count := artists.length, last_page := true, data := artistEntries }
        playlists := { count := 0, last_page := true, data := [] }
        top_query := { count := 0, last_page := true, data := [] }
        shows := { count := 0, last_page := true, data := [] } }

/-- getMegaMenu: three listing calls mapped to name/url lists; any failure
yields the structurally valid empty menu. -/
def getMegaMenu (_e : Env)
    (_sections : Except String (PlexContainer PlexSection))
    (recentAlbums : Except String (PlexContainer PlexAlbum))
    (playlists : Except String (PlexContainer PlexPlaylist))
    (artists : Except String (PlexContainer PlexArtist)) :
    Synology.MegaMenu :=
  match recentAlbums, playlists, artists with
  | Except.ok ra, Except.ok pl, Except.ok ar =>
      { new_releases := (jsArr ra.metadata).map (fun album =>
          { name := album.title, url := "/album/" ++ album.ratingKey })
        top_playlists := (jsArr pl.metadata).map (fun playlist =>
          { name := playlist.title, url := "/playlist/" ++ playlist.ratingKey })
        top_artists := (jsArr ar.metadata).map (fun artist =>
          { name := artist.title, url := "/artist/" ++ artist.ratingKey }) }
  | _, _, _ =>
      { top_artists := [], top_playlists := [], new_releases := [] }

/-- getFooterDetails: three listing calls mapped to footer links; any failure
yields the structurally valid empty footer. -/
def getFooterDetails (_e : Env)
    (_sections : Except String (PlexContainer PlexSection))
    (artists : Except String (PlexContainer PlexArtist))
    (albums : Except String (PlexContainer PlexAlbum))
    (playlists : Except String (PlexContainer PlexPlaylist)) :
    Synology.FooterDetails :=
  match artists, albums, playlists with
  | Except.ok ar, Except.ok al, Except.ok pl =>
      { artist := (jsArr ar.metadata).enum.map (fun p =>
          { id := jsOr p.2.ratingKey ("artist-" ++ toString p.1)
            title := p.2.title
            action := "/artist/" ++ p.2.ratingKey })
        album := (jsArr al.metadata).enum.map (fun p =>
          { id := jsOr p.2.ratingKey ("album-" ++ toString p.1)
            title := p.2.title
            action := "/album/" ++ p.2.ratingKey })
        playlist := (jsArr pl.metadata).enum.map (fun p =>
          { id := jsOr p.2.ratingKey ("playlist-" ++ toString p.1)
            title := p.2.title
            action := "/playlist/" ++ p.2.ratingKey })
        actor := [] }
  | _, _, _ =>
      { playlist := [], artist := [], album := [], actor := [] }

/-- One top-search entry. -/
structure TopSearch where
  id : String
  name : String
  explicit : Bool
  subtitle : String
  type : String
  image : Quality
  url : String
  album : String
  artist_map : List ArtistMap
  deriving Repr, DecidableEq

/-- getTopSearches: most-played listing mapped; any failure yields the empty
list. -/
def getTopSearches (e : Env)
    (_sections : Except String (PlexContainer PlexSection))
    (popular : Except String (PlexContainer PlexTrack)) : List TopSearch :=
  let baseUrl := jsOrOptStr e.PLEX_URL ""
  let plexToken := jsOrOptStr e.PLEX_TOKEN ""
  match popular with
  | Except.error _ => []
  | Except.ok d =>
      (jsArr d.metadata).map (fun track =>
        { id := track.ratingKey
          name := track.title
          explicit := false
          subtitle := jsOr track.grandparentTitle ""
          type := "song"
          image := getPlexImageUrl (jsOrOpt track.thumb track.grandparentThumb)
            baseUrl plexToken
          url := "/song/" ++ track.ratingKey
          album := jsOr track.parentTitle ""
          artist_map :=
            if track.grandparentTitle ≠ "" then
              [ { primary_artists :=
                    [ { id := jsOr track.grandparentKey ""
                        name := track.grandparentTitle
                        role := "primary_artist"
                        image := getPlexImageUrl track.grandparentThumb baseUrl plexToken
                        url := "/artist/" ++ jsOr track.grandparentKey ""
                        type := "artist" } ]
                  artists := []
                  featured_artists := [] } ]
            else [] })

end Plex

/-!
## Provider router (the unified music API layer)

The router decides per logical operation which adapter serves the request.
The adapter call results are passed as Except values: ok is the value an
adapter returned, error a thrown one. The data operations (home feed, song,
album, artist detail, search) all use the same block: when the three Synology
variables are present, try the Synology adapter and on a thrown error fall
through; then return the result of the plex adapter call when getApiProvider
selects plex, else of the catalog (jiosaavn) adapter call — both returned
directly, without a surrounding try/catch. The menu operations skip the
Synology block entirely.
-/

namespace Router

/-- getApiProvider: plex only when selected by API_PROVIDER and both PLEX
variables are truthy; custom and everything else resolve to jiosaavn. -/
def getApiProvider (e : Env) : String :=
  let provider := jsOr e.API_PROVIDER "jiosaavn"
  if provider = "plex" then
    if ¬ jsTruthy e.PLEX_URL || ¬ jsTruthy e.PLEX_TOKEN then "jiosaavn"
    else "plex"
  else if provider = "custom" then "jiosaavn"
  else "jiosaavn"

/-- The synologyConfigured check each data operation recomputes: truthiness
of the three connection variables. -/
def synologyConfigured (e : Env) : Bool :=
  jsTruthy e.SYNOLOGY_SERVER_URL && jsTruthy e.SYNOLOGY_USERNAME &&
    jsTruthy e.SYNOLOGY_PASSWORD

/-- The shared body of the five data operations: Synology first when
configured with a catch that falls through, then the provider chosen by
getApiProvider, whose call result is returned as is. -/
def routeData (e : Env) (syn plex jio : Except String α) : Except String α :=
  if synologyConfigured e then
    match syn with
    | Except.ok v => Except.ok v
    | Except.error _ =>
        if getApiProvider e = "plex" then plex else jio
  else
    if getApiProvider e = "plex" then plex else jio

/-- The unified getHomeData. -/
def getHomeData (e : Env) (syn plex jio : Except String α) : Except String α :=
  routeData e syn plex jio

/-- The unified getSongDetails. -/
def getSongDetails (e : Env) (syn plex jio : Except String α) : Except String α :=
  routeData e syn plex jio

/-- The unified getAlbumDetails. -/
def getAlbumDetails (e : Env) (syn plex jio : Except String α) : Except String α :=
  routeData e syn plex jio

/-- The unified getArtistDetails. -/
def getArtistDetails (e : Env) (syn plex jio : Except String α) : Except String α :=
  routeData e syn plex jio

/-- The unified searchAll. -/
def searchAll (e : Env) (syn plex jio : Except String α) : Except String α :=
  routeData e syn plex jio

/-- The shared body of the three menu operations: no Synology step at all,
just the provider chosen by getApiProvider. -/
def routeMenu (e : Env) (plex jio : Except String α) : Except String α :=
  if getApiProvider e = "plex" then plex else jio

/-- The unified getMegaMenu. -/
def getMegaMenu (e : Env) (plex jio : Except String α) : Except String α :=
  routeMenu e plex jio

/-- The unified getFooterDetails. -/
def getFooterDetails (e : Env) (plex jio : Except String α) : Except String α :=
  routeMenu e plex jio

/-- The unified getTopSearches. -/
def getTopSearches (e : Env) (plex jio : Except String α) : Except String α :=
  routeMenu e plex jio

end Router

/-!
## Fixtures

Concrete values used by the counterexamples and the witnesses below.
-/

/-- An environment with the plex provider selected and configured and the
Synology variables absent. -/
def plexEnvFixture : Env :=
  { API_PROVIDER := "plex"
    PLEX_URL := some "http://plex.local:32400"
    PLEX_TOKEN := some "plex-token"
    SYNOLOGY_SERVER_URL := none
    SYNOLOGY_USERNAME := none
    SYNOLOGY_PASSWORD := none }

/-- An environment with the plex variables present but API_PROVIDER left at
its jiosaavn default. -/
def plexUnselectedEnvFixture : Env :=
  { API_PROVIDER := "jiosaavn"
    PLEX_URL := some "http://plex.local:32400"
    PLEX_TOKEN := some "plex-token"
    SYNOLOGY_SERVER_URL := none
    SYNOLOGY_USERNAME := none
    SYNOLOGY_PASSWORD := none }

/-- An environment with the three Synology variables present. -/
def synoEnvFixture : Env :=
  { API_PROVIDER := "jiosaavn"
    PLEX_URL := none
    PLEX_TOKEN := none
    SYNOLOGY_SERVER_URL := some "http://nas.local:5000"
    SYNOLOGY_USERNAME := some "admin"
    SYNOLOGY_PASSWORD := some "secret" }

/-- A non-empty mega menu standing for a catalog-adapter response. -/
def jioMenuFixture : Synology.MegaMenu :=
  { top_artists := [{ name := "Catalog Artist", url := "/artist/catalog" }]
    top_playlists := []
    new_releases := [] }

/-- A mega menu standing for a plex-adapter response. -/
def plexMenuFixture : Synology.MegaMenu :=
  { top_artists := [{ name := "Plex Artist", url := "/artist/plex" }]
    top_playlists := []
    new_releases := [] }

/-- An audio file entry with an old modification time. -/
def oldFileFixture : Synology.SynologyFile :=
  { path := "/m/a.mp3", name := "a.mp3", isdir := false,
    additional := some { time := some { mtime := 100 } } }

/-- The most-recently-changed audio file of the cap counterexample listing. -/
def recentFileFixture : Synology.SynologyFile :=
  { path := "/m/b.mp3", name := "b.mp3", isdir := false,
    additional := some { time := some { mtime := 200 } } }

/-- A listing of 51 audio files in which the most-recently-changed one comes
last in listing order. -/
def capScanListing : List Synology.SynologyFile :=
  List.replicate 50 oldFileFixture ++ [recentFileFixture]

/-- Embedded tags that are present and parseable for every file. -/
def fullTagFixture : Synology.TagMeta :=
  { artist := some "Tagged Artist", album := some "Tagged Album",
    title := some "Tagged Title", year := some 2001, track := some 7,
    duration := some 185, genre := some "rock" }

/-- A plex track with a 185000 ms duration. -/
def trackFixture : Plex.PlexTrack :=
  { ratingKey := "4242"
    title := "One More Time"
    parentKey := "/library/metadata/7"
    parentTitle := "Discovery"
    grandparentKey := "/library/metadata/3"
    grandparentTitle := "Daft Punk"
    thumb := some "/library/metadata/4242/thumb"
    grandparentThumb := none
    year := some 2001
    duration := 185000
    viewCount := some 3
    summary := none
    media := [{ parts := [{ key := "/library/parts/1/file.flac", file := "/music/f.flac" }] }]
    originalTitle := none }

/-! ### Codec lemmas -/

theorem fromSextets_toSextets :
    ∀ l : List Nat, (∀ b ∈ l, b < 256) → fromSextets (toSextets l) = l
  | [], _ => rfl
  | [a], h => by
      have ha : a < 256 := h a (by simp)
      simp only [toSextets, fromSextets, List.cons.injEq, and_true]
      omega
  | [a, b], h => by
      have ha : a < 256 := h a (by simp)
      have hb : b < 256 := h b (by simp)
      simp only [toSextets, fromSextets, List.cons.injEq, and_true]
      constructor <;> omega
  | a :: b :: c :: t, h => by
      have ha : a < 256 := h a (by simp)
      have hb : b < 256 := h b (by simp)
      have hc : c < 256 := h c (by simp)
      have ih := fromSextets_toSextets t (fun x hx => h x (by simp [hx]))
      simp only [toSextets, fromSextets, List.cons.injEq]
      refine ⟨by omega, by omega, by omega, ih⟩

theorem toSextets_lt :
    ∀ l : List Nat, (∀ b ∈ l, b < 256) → ∀ s ∈ toSextets l, s < 64
  | [], _ => by simp [toSextets]
  | [a], h => by
      have ha : a < 256 := h a (by simp)
      simp only [toSextets, List.mem_cons, List.not_mem_nil, or_false]
      rintro s (rfl | rfl) <;> omega
  | [a, b], h => by
      have ha : a < 256 := h a (by simp)
      have hb : b < 256 := h b (by simp)
      simp only [toSextets, List.mem_cons, List.not_mem_nil, or_false]
      rintro s (rfl | rfl | rfl) <;> omega
  | a :: b :: c :: t, h => by
      have ha : a < 256 := h a (by simp)
      have hb : b < 256 := h b (by simp)
      have hc : c < 256 := h c (by simp)
      have ih := toSextets_lt t (fun x hx => h x (by simp [hx]))
      simp only [toSextets, List.mem_cons]
      rintro s (rfl | rfl | rfl | rfl | hs)
      · omega
      · omega
      · omega
      · omega
      · exact ih s hs

theorem b64CharVal_b64Char : ∀ s : Fin 64, b64CharVal (b64Char s.val) = some s.val := by
  decide

theorem b64Char_ne_eq : ∀ s : Fin 64, b64Char s.val ≠ '=' := by
  decide

theorem b64Char_ne_dash : ∀ s : Fin 64, b64Char s.val ≠ '-' := by
  decide

theorem b64Char_ne_underscore : ∀ s : Fin 64, b64Char s.val ≠ '_' := by
  decide

/-- The URL-safe substitution applied to one character of the encoded id. -/
def urlSafeChar (c : Char) : Char :=
  (fun c => if c = '/' then '_' else c) (if c = '+' then '-' else c)

theorem urlSafeChar_roundtrip :
    ∀ s : Fin 64,
      (if (if urlSafeChar (b64Char s.val) = '-' then '+'
           else urlSafeChar (b64Char s.val)) = '_' then '/'
       else if urlSafeChar (b64Char s.val) = '-' then '+'
       else urlSafeChar (b64Char s.val)) = b64Char s.val := by
  decide

theorem urlSafeChar_ne_eq : ∀ s : Fin 64, urlSafeChar (b64Char s.val) ≠ '=' := by
  decide

theorem optTraverse_map_coherent {f : α → Option β} {g : β → α} :
    ∀ l : List β, (∀ b ∈ l, f (g b) = some b) → optTraverse f (l.map g) = some l
  | [], _ => rfl
  | b :: t, h => by
      have ih := optTraverse_map_coherent t (fun x hx => h x (by simp [hx]))
      simp only [List.map_cons, optTraverse, h b (by simp), ih]

theorem filter_ne_replicate (k : Nat) (c : Char) :
    (List.replicate k c).filter (fun x => x ≠ c) = [] := by
  induction k with
  | zero => rfl
  | succ n ih => simp [List.replicate_succ, List.filter_cons, ih]

/-- Pushing the two URL-safe replacement maps through the alphabet characters
of the encoding. -/
theorem mapsFwd (S : List Nat) :
    (((S.map b64Char).map (fun c => if c = '+' then '-' else c)).map
        (fun c => if c = '/' then '_' else c))
      = S.map (fun s => urlSafeChar (b64Char s)) := by
  simp only [List.map_map]
  rfl

/-- Undoing the URL-safe replacements on the encoded characters restores the
alphabet characters. -/
theorem mapsInv :
    ∀ S : List Nat, (∀ s ∈ S, s < 64) →
      (((S.map (fun s => urlSafeChar (b64Char s))).map
            (fun c => if c = '-' then '+' else c)).map
          (fun c => if c = '_' then '/' else c))
        = S.map b64Char
  | [], _ => rfl
  | a :: t, h => by
      have ih := mapsInv t (fun s hs => h s (by simp [hs]))
      have hpt := urlSafeChar_roundtrip ⟨a, h a (by simp)⟩
      simp only [List.map_cons, List.cons.injEq]
      exact ⟨hpt, ih⟩

/-- The encoded id is exactly the URL-safe image of the sextet characters:
the maps distribute and the filter removes precisely the padding. -/
theorem encodeFileId_eq (path : List Nat) (h : ∀ b ∈ path, b < 256) :
    encodeFileId path = (toSextets path).map (fun s => urlSafeChar (b64Char s)) := by
  have hS : ∀ s ∈ toSextets path, s < 64 := toSextets_lt path h
  unfold encodeFileId b64chars
  rw [List.map_append, List.map_append, List.filter_append]
  rw [List.map_replicate, List.map_replicate]
  have hrep : (if (if ('=' : Char) = '+' then '-' else '=') = '/' then '_'
      else if ('=' : Char) = '+' then '-' else '=') = '=' := by decide
  rw [hrep, filter_ne_replicate, List.append_nil, mapsFwd]
  refine List.filter_eq_self.mpr ?_
  intro a ha
  obtain ⟨s, hs, rfl⟩ := List.mem_map.mp ha
  simpa using urlSafeChar_ne_eq ⟨s, hS s hs⟩

/-- Decoding inverts the URL-safe substitution, strips the restored padding
and recovers the sextets, hence the bytes. -/
theorem decodeSongToken_encodeFileId (path : List Nat) (h : ∀ b ∈ path, b < 256) :
    decodeSongToken (encodeFileId path) = some path := by
  have hS : ∀ s ∈ toSextets path, s < 64 := toSextets_lt path h
  rw [encodeFileId_eq path h]
  unfold decodeSongToken
  simp only [mapsInv (toSextets path) hS]
  unfold decodeB64
  rw [List.filter_append, filter_ne_replicate, List.append_nil]
  rw [List.filter_eq_self.mpr]
  · rw [optTraverse_map_coherent (toSextets path)
      (fun s hs => b64CharVal_b64Char ⟨s, hS s hs⟩)]
    simp [fromSextets_toSextets path h]
  · intro a ha
    simp only [List.mem_map] at ha
    obtain ⟨s, hs, rfl⟩ := ha
    simpa using b64Char_ne_eq ⟨s, hS s hs⟩

/-! ### Length accounting for the inconsistent stripped ids (C10) -/

theorem length_toSextets :
    ∀ l : List Nat, (toSextets l).length = (4 * l.length + 2) / 3
  | [] => rfl
  | [_] => by simp [toSextets]
  | [_, _] => by simp [toSextets]
  | _ :: _ :: _ :: t => by
      have ih := length_toSextets t
      simp only [toSextets, List.length_cons]
      omega

theorem length_fromSextets :
    ∀ S : List Nat, (fromSextets S).length = 3 * S.length / 4
  | [] => rfl
  | [_] => by simp [fromSextets]
  | [_, _] => by simp [fromSextets]
  | [_, _, _] => by simp [fromSextets]
  | _ :: _ :: _ :: _ :: t => by
      have ih := length_fromSextets t
      simp only [fromSextets, List.length_cons]
      omega

theorem length_filter_lt_of_mem {p : α → Bool} {l : List α} {a : α}
    (ha : a ∈ l) (hpa : p a = false) : (l.filter p).length < l.length := by
  induction l with
  | nil => cases ha
  | cons b t ih =>
      rcases List.mem_cons.mp ha with rfl | hat
      · have := List.length_filter_le p t
        simp only [List.filter_cons, hpa]
        simp only [Bool.false_eq_true, if_false, List.length_cons]
        omega
      · have hle := List.length_filter_le p t
        have hlt := ih hat
        by_cases hpb : p b = true
        · simp only [List.filter_cons, hpb, if_true, List.length_cons]
          omega
        · simp only [List.filter_cons, hpb, List.length_cons]
          split <;> simp <;> omega

theorem b64Char_eq_plus : ∀ s : Fin 64, b64Char s.val = '+' → s.val = 62 := by
  decide

theorem b64Char_eq_slash : ∀ s : Fin 64, b64Char s.val = '/' → s.val = 63 := by
  decide

theorem b64Char_urlInv_fixed :
    ∀ s : Fin 64,
      (if (if b64Char s.val = '-' then '+' else b64Char s.val) = '_' then '/'
       else if b64Char s.val = '-' then '+' else b64Char s.val) = b64Char s.val := by
  decide

/-- Undoing the URL-safe replacements leaves plain alphabet characters
untouched: the alphabet contains neither dash nor underscore. -/
theorem mapsInvOnAlphabet :
    ∀ S : List Nat, (∀ s ∈ S, s < 64) →
      (((S.map b64Char).map (fun c => if c = '-' then '+' else c)).map
          (fun c => if c = '_' then '/' else c))
        = S.map b64Char
  | [], _ => rfl
  | a :: t, h => by
      have ih := mapsInvOnAlphabet t (fun s hs => h s (by simp [hs]))
      have hpt := b64Char_urlInv_fixed ⟨a, h a (by simp)⟩
      simp only [List.map_cons, List.cons.injEq]
      exact ⟨hpt, ih⟩

/-- The stripped id is the alphabet image of the sextets that do not encode
to plus, slash or equals. -/
theorem strippedB64Id_eq (name : List Nat) :
    strippedB64Id name
      = ((toSextets name).filter
          (fun s => ¬ (b64Char s = '+' ∨ b64Char s = '/' ∨ b64Char s = '='))).map
        b64Char := by
  unfold strippedB64Id b64chars
  rw [List.filter_append, List.filter_map]
  have hrep : ((List.replicate ((4 - (toSextets name).length % 4) % 4) '=').filter
      (fun c => ¬ (c = '+' ∨ c = '/' ∨ c = '='))) = [] := by
    rw [List.filter_replicate]
    simp
  rw [hrep, List.append_nil]
  rfl

/-- Decoding a list of plain alphabet characters (no padding) recovers the
bytes of the corresponding sextets. -/
theorem decodeSongToken_alphabet (S : List Nat) (hS : ∀ s ∈ S, s < 64) :
    decodeSongToken (S.map b64Char) = some (fromSextets S) := by
  unfold decodeSongToken
  simp only [mapsInvOnAlphabet S hS]
  unfold decodeB64
  rw [List.filter_append, filter_ne_replicate, List.append_nil]
  rw [List.filter_eq_self.mpr]
  · rw [optTraverse_map_coherent S (fun s hs => b64CharVal_b64Char ⟨s, hS s hs⟩)]
    rfl
  · intro a ha
    obtain ⟨s, hs, rfl⟩ := List.mem_map.mp ha
    simpa using b64Char_ne_eq ⟨s, hS s hs⟩

/-! ### Scan lemmas (the findAudioFiles cap and per-file isolation) -/

namespace Synology

theorem length_findAudioFiles (files : List SynologyFile)
    (oracle : String → TagMeta) (now : Nat) :
    (findAudioFiles files oracle now).length
      = (files.filter (fun f => !f.isdir && isAudioFile f.name)).length := by
  unfold findAudioFiles
  simp only [List.length_append, List.length_map, List.length_take, List.length_drop]
  omega

/-- Indexing the concatenation of a mapped prefix (of length n) and a
differently mapped remainder. -/
theorem getElem?_splitMap (f g : α → β) (l : List α) (n i : Nat) :
    ((l.take n).map f ++ (l.drop n).map g)[i]?
      = (l[i]?).map (if i < n then f else g) := by
  by_cases hi : i < n
  · rw [if_pos hi]
    by_cases hil : i < l.length
    · have h1 : i < ((l.take n).map f).length := by
        simp only [List.length_map, List.length_take]
        omega
      rw [List.getElem?_append_left h1, List.getElem?_map, List.getElem?_take_of_lt hi]
    · push_neg at hil
      have h1 : ((l.take n).map f).length ≤ i := by
        simp only [List.length_map, List.length_take]
        omega
      rw [List.getElem?_append_right h1, List.getElem?_map, List.getElem?_drop]
      have e1 : l[n + (i - ((l.take n).map f).length)]? = none :=
        List.getElem?_eq_none (by omega)
      have e2 : l[i]? = none := List.getElem?_eq_none hil
      rw [e1, e2]
      rfl
  · rw [if_neg hi]
    push_neg at hi
    have h1 : ((l.take n).map f).length ≤ i := by
      simp only [List.length_map, List.length_take]
      omega
    rw [List.getElem?_append_right h1, List.getElem?_map, List.getElem?_drop]
    by_cases hL : n ≤ l.length
    · have hidx : n + (i - ((l.take n).map f).length) = i := by
        simp only [List.length_map, List.length_take]
        omega
      rw [hidx]
    · push_neg at hL
      have e1 : l[n + (i - ((l.take n).map f).length)]? = none :=
        List.getElem?_eq_none (by omega)
      have e2 : l[i]? = none := List.getElem?_eq_none (by omega)
      rw [e1, e2]

theorem findAudioFiles_getElem (files : List SynologyFile)
    (oracle : String → TagMeta) (now : Nat) (i : Nat) :
    (findAudioFiles files oracle now)[i]?
      = ((files.filter (fun f => !f.isdir && isAudioFile f.name))[i]?).map
          (if i < maxFiles then processFile oracle now else fallbackInfo now) := by
  unfold findAudioFiles
  exact getElem?_splitMap (processFile oracle now) (fallbackInfo now)
    (files.filter (fun f => !f.isdir && isAudioFile f.name)) maxFiles i

theorem processFile_congr {o1 o2 : String → TagMeta} (now : Nat)
    (f : SynologyFile) (h : o1 f.path = o2 f.path) :
    processFile o1 now f = processFile o2 now f := by
  unfold processFile
  rw [h]

theorem processFile_path (o : String → TagMeta) (now : Nat) (f : SynologyFile) :
    (processFile o now f).path = f.path := rfl

theorem fallbackInfo_path (now : Nat) (f : SynologyFile) :
    (fallbackInfo now f).path = f.path := rfl

end Synology

/-! ## Claim theorems -/

/-- C1: Identifier round-trip. For every file path (as its UTF-8 bytes),
decoding the identifier produced by mapFileToSong recovers the path exactly:
encode is standard base64 with plus mapped to dash, slash to underscore and
the padding removed, and the decode of getSongDetails reverses the character
mapping, restores the padding to a multiple of 4 and base64-decodes. -/
theorem identifier_roundtrip (path : List Nat) (h : ∀ b ∈ path, b < 256) :
    decodeSongToken (encodeFileId path) = some path :=
  decodeSongToken_encodeFileId path h

/-- Witness for C1 at a concrete path. -/
theorem identifier_roundtrip_witness :
    (∀ b ∈ utf8Bytes "/music/Daft Punk/Discovery/song.flac", b < 256) ∧
      decodeSongToken (encodeFileId (utf8Bytes "/music/Daft Punk/Discovery/song.flac"))
        = some (utf8Bytes "/music/Daft Punk/Discovery/song.flac") :=
  ⟨by decide, identifier_roundtrip _ (by decide)⟩

/-- C2 counterexample: with Synology misconfigured and the Plex connection
variables present, the claim demands that getHomeData never throws and falls
through to the catalog when the Plex call fails. In the code the Plex call
result is returned without a surrounding try/catch, so the error propagates
(first conjunct), and when API_PROVIDER is not plex the catalog output is
returned even though Plex is configured (second conjunct). -/
theorem router_getHomeData_counterexample :
    Router.getHomeData plexEnvFixture (Except.error "Synology NAS is not configured")
        (Except.error "Plex API error: 500 Internal Server Error") (Except.ok (0 : Nat))
      = Except.error "Plex API error: 500 Internal Server Error" ∧
    Router.getHomeData plexUnselectedEnvFixture
        (Except.error "Synology NAS is not configured")
        (Except.ok (1 : Nat)) (Except.ok 2)
      = Except.ok 2 := by
  constructor <;> rfl

/-- C2 amended: with Synology misconfigured, API_PROVIDER set to plex and
both Plex variables present, getHomeData returns the Plex adapter call result
as is: its output when it succeeds (never the catalog output), and its error
when it fails — the error propagates, there is no second fallback to the
catalog adapter. -/
theorem router_getHomeData_plex_passthrough {α : Type} (e : Env)
    (syn plex jio : Except String α)
    (hsyn : Router.synologyConfigured e = false)
    (hplex : Router.getApiProvider e = "plex") :
    Router.getHomeData e syn plex jio = plex := by
  unfold Router.getHomeData Router.routeData
  simp [hsyn, hplex]

/-- Witness for the amended C2 at a concrete environment. -/
theorem router_getHomeData_plex_passthrough_witness :
    Router.synologyConfigured plexEnvFixture = false ∧
    Router.getApiProvider plexEnvFixture = "plex" ∧
    Router.getHomeData plexEnvFixture (Except.error "nas down")
        (Except.ok (7 : Nat)) (Except.ok 0) = Except.ok 7 :=
  ⟨by decide, by decide,
    router_getHomeData_plex_passthrough plexEnvFixture _ _ _ (by decide) (by decide)⟩

/-- C3 counterexample: with the file-index provider fully configured, the
claim demands that every menu operation prefer the file-index adapter. The
mega menu router never consults it: it returns the catalog adapter output,
which differs from the configured Synology adapter output. -/
theorem router_megaMenu_counterexample :
    Router.synologyConfigured synoEnvFixture = true ∧
    Router.getMegaMenu synoEnvFixture (Except.ok plexMenuFixture)
        (Except.ok jioMenuFixture)
      = Except.ok jioMenuFixture ∧
    Synology.getMegaMenu synoEnvFixture
      = Except.ok { top_artists := [], top_playlists := [], new_releases := [] } ∧
    jioMenuFixture ≠ { top_artists := [], top_playlists := [], new_releases := [] } := by
  refine ⟨by decide, rfl, rfl, by decide⟩

/-- C3 amended: for the data operations (home feed, song, album, artist
detail, search) the router prefers the file-index adapter whenever the three
Synology variables are present (a presence-only check, no placeholder
detection), falling back to the provider selected by getApiProvider when the
Synology call throws or the variables are absent; getApiProvider selects the
home-media adapter only when API_PROVIDER is plex and both Plex variables
are truthy; the menu operations (mega menu, footer, top searches) never
consult the file-index adapter and route directly by getApiProvider. -/
theorem provider_selection_policy {α : Type} (e : Env) (v : α)
    (syn plex jio : Except String α) :
    (Router.synologyConfigured e = true → syn = Except.ok v →
      Router.getHomeData e syn plex jio = Except.ok v ∧
      Router.getSongDetails e syn plex jio = Except.ok v ∧
      Router.getAlbumDetails e syn plex jio = Except.ok v ∧
      Router.getArtistDetails e syn plex jio = Except.ok v ∧
      Router.searchAll e syn plex jio = Except.ok v) ∧
    (∀ msg, Router.synologyConfigured e = true → syn = Except.error msg →
      Router.getHomeData e syn plex jio
        = (if Router.getApiProvider e = "plex" then plex else jio)) ∧
    (Router.synologyConfigured e = false →
      Router.getHomeData e syn plex jio
        = (if Router.getApiProvider e = "plex" then plex else jio)) ∧
    (Router.getApiProvider e = "plex" ↔
      jsOr e.API_PROVIDER "jiosaavn" = "plex" ∧ jsTruthy e.PLEX_URL = true ∧
        jsTruthy e.PLEX_TOKEN = true) ∧
    (Router.getMegaMenu e plex jio
        = (if Router.getApiProvider e = "plex" then plex else jio) ∧
      Router.getFooterDetails e plex jio
        = (if Router.getApiProvider e = "plex" then plex else jio) ∧
      Router.getTopSearches e plex jio
        = (if Router.getApiProvider e = "plex" then plex else jio)) := by
  refine ⟨?_, ?_, ?_, ?_, rfl, rfl, rfl⟩
  · intro hcfg hok
    subst hok
    unfold Router.getHomeData Router.getSongDetails Router.getAlbumDetails
      Router.getArtistDetails Router.searchAll Router.routeData
    simp [hcfg]
  · intro msg hcfg herr
    subst herr
    unfold Router.getHomeData Router.routeData
    simp [hcfg]
  · intro hcfg
    unfold Router.getHomeData Router.routeData
    simp [hcfg]
  · unfold Router.getApiProvider
    have hjp : ("jiosaavn" : String) ≠ "plex" := by decide
    by_cases hp : jsOr e.API_PROVIDER "jiosaavn" = "plex" <;>
      by_cases hu : jsTruthy e.PLEX_URL <;>
        by_cases ht : jsTruthy e.PLEX_TOKEN <;>
          simp [hp, hu, ht, hjp]

/-- Witness for the amended C3 at a concrete environment. -/
theorem provider_selection_policy_witness :
    Router.synologyConfigured synoEnvFixture = true ∧
    Router.getHomeData synoEnvFixture (Except.ok (5 : Nat)) (Except.ok 1)
        (Except.ok 2) = Except.ok 5 :=
  ⟨by decide,
    (provider_selection_policy synoEnvFixture 5 (Except.ok 5) (Except.ok 1)
      (Except.ok 2)).1 (by decide) rfl |>.1⟩

/-- C8: Duration conversion. The home-media adapter maps the upstream track
duration, in milliseconds, to whole seconds by floor division by 1000; in
particular 185000 ms maps to exactly 185 seconds. -/
theorem duration_ms_to_seconds :
    (∀ (t : Plex.PlexTrack) (baseUrl token : String) (i : Nat),
        (Plex.mapPlexTrackToSong t baseUrl token i).duration = t.duration / 1000) ∧
      (Plex.mapPlexTrackToSong trackFixture "http://plex.local:32400" "plex-token" 0).duration
        = 185 := by
  exact ⟨fun t baseUrl token i => rfl, rfl⟩

/-- C9: searchAll bundle invariants of the file-index adapter. Every count
equals the length of the returned (truncated) data list, never the total
number of matches: the songs count is the minimum of 20 and the match count,
the album and artist lists hold at most 20 entries, every collection reports
last_page, and the playlists and shows collections are empty with count 0. -/
theorem searchAll_bundle_invariants (allFiles : List Synology.AudioFileInfo)
    (query baseUrl sessionId : String) :
    (Synology.searchAll allFiles query baseUrl sessionId).songs.count
        = (Synology.searchAll allFiles query baseUrl sessionId).songs.data.length ∧
      (Synology.searchAll allFiles query baseUrl sessionId).songs.data.length
        = min 20 (allFiles.filter
            (Synology.searchMatches (toLowerStr query))).length ∧
      (Synology.searchAll allFiles query baseUrl sessionId).albums.count
        = (Synology.searchAll allFiles query baseUrl sessionId).albums.data.length ∧
      (Synology.searchAll allFiles query baseUrl sessionId).albums.data.length ≤ 20 ∧
      (Synology.searchAll allFiles query baseUrl sessionId).artists.count
        = (Synology.searchAll allFiles query baseUrl sessionId).artists.data.length ∧
      (Synology.searchAll allFiles query baseUrl sessionId).artists.data.length ≤ 20 ∧
      (Synology.searchAll allFiles query baseUrl sessionId).songs.last_page = true ∧
      (Synology.searchAll allFiles query baseUrl sessionId).albums.last_page = true ∧
      (Synology.searchAll allFiles query baseUrl sessionId).artists.last_page = true ∧
      (Synology.searchAll allFiles query baseUrl sessionId).playlists
        = { count := 0, last_page := true, data := [] } ∧
      (Synology.searchAll allFiles query baseUrl sessionId).shows
        = { count := 0, last_page := true, data := [] } := by
  refine ⟨rfl, ?_, rfl, ?_, rfl, ?_, rfl, rfl, rfl, rfl, rfl⟩
  · show (((allFiles.filter (Synology.searchMatches (toLowerStr query))).take 20).enum.map
        (fun p => Synology.mapFileToSong p.2 baseUrl sessionId p.1)).length = _
    rw [List.length_map, List.enum_length, List.length_take]
  · show ((Synology.insertionKeys ((allFiles.filter
          (Synology.searchMatches (toLowerStr query))).map
            (fun f => jsOrOptStr f.album "Unknown Album"))).take 20 |>.map _).length ≤ 20
    rw [List.length_map, List.length_take]
    exact Nat.min_le_left _ _
  · show ((Synology.insertionKeys ((allFiles.filter
          (Synology.searchMatches (toLowerStr query))).map
            (fun f => jsOrOptStr f.artist "Unknown Artist"))).take 20 |>.map _).length ≤ 20
    rw [List.length_map, List.length_take]
    exact Nat.min_le_left _ _

/-- C7 counterexample: on a failing step the Plex adapter does not return
the structurally valid empty shapes the claim demands: getHomeData returns
the bare empty object (no sections present at all, rather than sections with
empty data lists) and getAlbumDetails likewise returns the bare empty object
rather than a well-formed empty album. -/
theorem plex_empty_shape_counterexample :
    Plex.getHomeData plexEnvFixture (Except.error "fetch failed")
        (Except.error "fetch failed") (Except.error "fetch failed")
        (Except.error "fetch failed") = none ∧
    Plex.getAlbumDetails plexEnvFixture (Except.error "fetch failed")
        (Except.error "fetch failed") = none :=
  ⟨rfl, rfl⟩

/-- C7 amended: no Plex operation throws on a failing step (each is a total
function of its step results), but the failure shapes differ: getHomeData,
getAlbumDetails and getArtistDetails return the bare empty object cast to
the expected type (none), while getSongDetails returns the empty songs list
and searchAll, getMegaMenu, getFooterDetails and getTopSearches return
structurally valid empty shapes. -/
theorem plex_failure_shapes (e : Env) (msg : String)
    (sections : Except String (Plex.PlexContainer Plex.PlexSection))
    (recent : Except String (Plex.PlexContainer Plex.PlexTrack))
    (artists : Except String (Plex.PlexContainer Plex.PlexArtist))
    (playlists : Except String (Plex.PlexContainer Plex.PlexPlaylist))
    (albumData : Except String (Plex.PlexContainer Plex.PlexAlbum))
    (tracksData : Except String (Plex.PlexContainer Plex.PlexTrack))
    (artistData : Except String (Plex.PlexContainer Plex.PlexArtist))
    (albumsData : Except String (Plex.PlexContainer Plex.PlexAlbum)) :
    ((recent = Except.error msg ∨ artists = Except.error msg ∨
        playlists = Except.error msg) →
      Plex.getHomeData e sections recent artists playlists = none) ∧
    Plex.getSongDetails e (Except.error msg) = { songs := [] } ∧
    ((albumData = Except.error msg ∨ tracksData = Except.error msg) →
      Plex.getAlbumDetails e albumData tracksData = none) ∧
    ((artistData = Except.error msg ∨ albumsData = Except.error msg) →
      Plex.getArtistDetails e artistData albumsData = none) ∧
    Plex.searchAll e sections (Except.error msg) = Plex.emptyPlexAllSearch ∧
    ((albumsData = Except.error msg ∨ playlists = Except.error msg ∨
        artists = Except.error msg) →
      Plex.getMegaMenu e sections albumsData playlists artists
        = { top_artists := [], top_playlists := [], new_releases := [] }) ∧
    ((artists = Except.error msg ∨ albumsData = Except.error msg ∨
        playlists = Except.error msg) →
      Plex.getFooterDetails e sections artists albumsData playlists
        = { artist := [], actor := [], album := [], playlist := [] }) ∧
    Plex.getTopSearches e sections (Except.error msg) = [] := by
  refine ⟨?_, rfl, ?_, ?_, rfl, ?_, ?_, rfl⟩
  · intro h
    unfold Plex.getHomeData
    rcases h with rfl | rfl | rfl
    · cases artists <;> cases playlists <;> rfl
    · cases recent <;> cases playlists <;> rfl
    · cases recent <;> cases artists <;> rfl
  · intro h
    unfold Plex.getAlbumDetails
    rcases h with rfl | rfl
    · rfl
    · cases albumData with
      | error _ => rfl
      | ok ad =>
          cases hh : (Plex.jsArr ad.metadata).head? <;> simp [hh]
  · intro h
    unfold Plex.getArtistDetails
    rcases h with rfl | rfl
    · rfl
    · cases artistData with
      | error _ => rfl
      | ok d =>
          cases hh : (Plex.jsArr d.metadata).head? <;> simp [hh]
  · intro h
    unfold Plex.getMegaMenu
    rcases h with rfl | rfl | rfl
    · cases playlists <;> cases artists <;> rfl
    · cases albumsData <;> cases artists <;> rfl
    · cases albumsData <;> cases playlists <;> rfl
  · intro h
    unfold Plex.getFooterDetails
    rcases h with rfl | rfl | rfl
    · cases albumsData <;> cases playlists <;> rfl
    · cases artists <;> cases playlists <;> rfl
    · cases artists <;> cases albumsData <;> rfl

/-- Witness for the amended C7 at concrete failing steps. -/
theorem plex_failure_shapes_witness :
    Plex.getHomeData plexEnvFixture (Except.ok { metadata := none })
        (Except.error "timeout") (Except.ok { metadata := none })
        (Except.ok { metadata := none }) = none ∧
    Plex.getAlbumDetails plexEnvFixture (Except.error "timeout")
        (Except.ok { metadata := none }) = none := by
  have h := plex_failure_shapes plexEnvFixture "timeout"
    (Except.ok { metadata := none }) (Except.error "timeout")
    (Except.ok { metadata := none }) (Except.ok { metadata := none })
    (Except.error "timeout") (Except.ok { metadata := none })
    (Except.ok { metadata := none }) (Except.ok { metadata := none })
  exact ⟨h.1 (Or.inl rfl), h.2.2.1 (Or.inl rfl)⟩

/-- C10: Inconsistent stripped ids. The artist entries of searchAll and the
album entries of getArtistDetails build their id by deleting every plus,
slash and equals from the standard base64 of the name, while the token
embedded in their url uses the URL-safe mapping; consequently, for every
name whose base64 contains a plus or a slash, the id differs from the url
token of the same name and decoding the id does not recover the name. -/
theorem stripped_ids_inconsistent :
    (∀ (allFiles : List Synology.AudioFileInfo) (query baseUrl sessionId : String),
      ∀ entry ∈ (Synology.searchAll allFiles query baseUrl sessionId).artists.data,
        entry.id = strippedB64Id (utf8Bytes entry.name) ∧
          entry.url = "/artist/" ++ String.mk (encodeFileId (utf8Bytes entry.name))) ∧
    (∀ artistName albumName : String,
      (Synology.artistDetailAlbumEntry artistName albumName).id
          = strippedB64Id (utf8Bytes albumName) ∧
        (Synology.artistDetailAlbumEntry artistName albumName).url
          = "/album/" ++ String.mk (encodeFileId
              (utf8Bytes (artistName ++ "-" ++ albumName)))) ∧
    (∀ name : List Nat, (∀ b ∈ name, b < 256) →
      ('+' ∈ b64chars name ∨ '/' ∈ b64chars name) →
      strippedB64Id name ≠ encodeFileId name ∧
        decodeSongToken (strippedB64Id name) ≠ some name) := by
  refine ⟨?_, fun a b => ⟨rfl, rfl⟩, ?_⟩
  · intro allFiles query baseUrl sessionId entry hentry
    obtain ⟨key, _, rfl⟩ := List.mem_map.mp hentry
    exact ⟨rfl, rfl⟩
  · intro name h256 hmem
    have hS : ∀ s ∈ toSextets name, s < 64 := toSextets_lt name h256
    have hbad : ∃ s ∈ toSextets name, s = 62 ∨ s = 63 := by
      rcases hmem with hp | hp
      · unfold b64chars at hp
        rcases List.mem_append.mp hp with hp | hp
        · obtain ⟨s, hs, hcs⟩ := List.mem_map.mp hp
          exact ⟨s, hs, Or.inl (b64Char_eq_plus ⟨s, hS s hs⟩ hcs)⟩
        · have := List.eq_of_mem_replicate hp
          exact absurd this (by decide)
      · unfold b64chars at hp
        rcases List.mem_append.mp hp with hp | hp
        · obtain ⟨s, hs, hcs⟩ := List.mem_map.mp hp
          exact ⟨s, hs, Or.inr (b64Char_eq_slash ⟨s, hS s hs⟩ hcs)⟩
        · have := List.eq_of_mem_replicate hp
          exact absurd this (by decide)
    obtain ⟨s0, hs0, hv⟩ := hbad
    have hfilter : ((toSextets name).filter
          (fun s => ¬ (b64Char s = '+' ∨ b64Char s = '/' ∨ b64Char s = '='))).length
        < (toSextets name).length :=
      length_filter_lt_of_mem hs0 (by rcases hv with rfl | rfl <;> decide)
    constructor
    · intro heq
      have h1 := congrArg List.length heq
      rw [strippedB64Id_eq, encodeFileId_eq name h256] at h1
      simp only [List.length_map] at h1
      omega
    · have hsub : ∀ s ∈ (toSextets name).filter
          (fun s => ¬ (b64Char s = '+' ∨ b64Char s = '/' ∨ b64Char s = '=')), s < 64 :=
        fun s hs => hS s (List.mem_filter.mp hs).1
      rw [strippedB64Id_eq, decodeSongToken_alphabet _ hsub]
      intro heq
      rw [Option.some.injEq] at heq
      have hlen := congrArg List.length heq
      rw [length_fromSextets] at hlen
      have hLS : (toSextets name).length = (4 * name.length + 2) / 3 :=
        length_toSextets name
      omega

/-- Witness for C10 at a concrete one-byte name whose base64 starts with a
plus. -/
theorem stripped_ids_inconsistent_witness :
    (∀ b ∈ [251], b < 256) ∧
      ('+' ∈ b64chars [251] ∨ '/' ∈ b64chars [251]) ∧
      strippedB64Id [251] ≠ encodeFileId [251] ∧
      decodeSongToken (strippedB64Id [251]) ≠ some [251] := by
  have h := stripped_ids_inconsistent.2.2 [251] (by decide) (by decide)
  exact ⟨by decide, by decide, h.1, h.2⟩

/-- Helper: the JS indexing yields a member of the list when the index is in
range. -/
theorem jsGet_mem (l : List String) (i : Int) (h0 : 0 ≤ i)
    (h1 : i.toNat < l.length) : Synology.jsGet l i ∈ l := by
  unfold Synology.jsGet
  rw [dif_pos ⟨h0, h1⟩]
  exact List.get_mem l _ _

/-- C4 counterexample: the extraction cap takes the first maxFiles files in
listing order, not the most-recently-changed ones. In a listing of 51 audio
files whose most-recently-changed file (mtime 200) comes last, every older
file (mtime 100) receives tag extraction (duration present) while the
most-recently-changed one does not (duration unset), even though the tags of
every file are present and parseable. -/
theorem extraction_cap_counterexample :
    ((Synology.findAudioFiles capScanListing (fun _ => fullTagFixture) 300).map
        (fun i => (i.mtime, i.duration.isSome)))
      = List.replicate 50 (100, true) ++ [(200, false)] := by
  decide

/-- C4 amended: per scan, exactly the first maxFiles audio files in listing
order receive embedded-tag extraction (itself over a bounded byte-range
prefix, absorbed into the oracle); every file beyond the cap is built by the
filename heuristic only, with no duration and the heuristic title, while
files within the cap carry the tag-derived fields whenever the extracted
tags provide them. -/
theorem bounded_extraction_cap (files : List Synology.SynologyFile)
    (oracle : String → Synology.TagMeta) (now : Nat) :
    (Synology.findAudioFiles files oracle now).length
        = (files.filter (fun f => !f.isdir && Synology.isAudioFile f.name)).length ∧
      (∀ i, Synology.maxFiles ≤ i →
        (Synology.findAudioFiles files oracle now)[i]?
          = ((files.filter (fun f => !f.isdir && Synology.isAudioFile f.name))[i]?).map
              (Synology.fallbackInfo now)) ∧
      (∀ i, i < Synology.maxFiles →
        (Synology.findAudioFiles files oracle now)[i]?
          = ((files.filter (fun f => !f.isdir && Synology.isAudioFile f.name))[i]?).map
              (Synology.processFile oracle now)) ∧
      (∀ (f : Synology.SynologyFile) (now2 : Nat),
        (Synology.fallbackInfo now2 f).duration = none ∧
          (Synology.fallbackInfo now2 f).title
            = some (Synology.parseAudioFileName f.name (Synology.folderOf f.path)).title) ∧
      (∀ f : Synology.SynologyFile,
        (Synology.processFile oracle now f).duration = (oracle f.path).duration) ∧
      (∀ (f : Synology.SynologyFile) (a : String),
        (oracle f.path).artist = some a → a ≠ "" →
          (Synology.processFile oracle now f).artist = some a) ∧
      (∀ (f : Synology.SynologyFile) (t : String),
        (oracle f.path).title = some t → t ≠ "" →
          (Synology.processFile oracle now f).title = some t) ∧
      (∀ (f : Synology.SynologyFile) (al : String),
        (oracle f.path).album = some al → al ≠ "" →
          (Synology.processFile oracle now f).album = some al) := by
  refine ⟨Synology.length_findAudioFiles files oracle now, ?_, ?_,
    fun f now2 => ⟨rfl, rfl⟩, fun f => rfl, ?_, ?_, ?_⟩
  · intro i hi
    rw [Synology.findAudioFiles_getElem, if_neg (by omega)]
  · intro i hi
    rw [Synology.findAudioFiles_getElem, if_pos hi]
  · intro f a ha hne
    unfold Synology.processFile
    simp [ha, jsOrOpt, jsOrOptStr, hne]
  · intro f t ht hne
    unfold Synology.processFile
    simp [ht, jsOrOpt, jsOrOptStr, hne]
  · intro f al hal hne
    unfold Synology.processFile
    simp [hal, jsOrOpt, jsOrOptStr, hne]

/-- Witness for the amended C4 at the 51-file listing. -/
theorem bounded_extraction_cap_witness :
    (Synology.findAudioFiles capScanListing (fun _ => fullTagFixture) 300)[50]?
        = ((capScanListing.filter
            (fun f => !f.isdir && Synology.isAudioFile f.name))[50]?).map
            (Synology.fallbackInfo 300) ∧
      (Synology.processFile (fun _ => fullTagFixture) 300 oldFileFixture).artist
        = some "Tagged Artist" := by
  have h := bounded_extraction_cap capScanListing (fun _ => fullTagFixture) 300
  exact ⟨h.2.1 50 (by decide),
    h.2.2.2.2.2.1 oldFileFixture "Tagged Artist" rfl (by decide)⟩

/-- C6: Partial-item isolation. Making the tag extraction fail for one path
(the oracle yields the all-undefined default record there, exactly what
extractAudioMetadata returns on any fetch or parse failure) neither aborts
the scan nor drops any file: the scan keeps its length, every entry whose
path is not the failing one is unchanged, and the entry of the failing path
equals the entry of an all-failures scan, which is built purely from the
filename heuristic (no duration, no year, no genre). -/
theorem one_file_failure_isolation (files : List Synology.SynologyFile)
    (oracle : String → Synology.TagMeta) (now : Nat) (p : String) :
    (Synology.findAudioFiles files
        (fun q => if q = p then Synology.defaultTagMeta else oracle q) now).length
      = (Synology.findAudioFiles files oracle now).length ∧
    (∀ (i : Nat) (x x' : Synology.AudioFileInfo),
      (Synology.findAudioFiles files oracle now)[i]? = some x →
      (Synology.findAudioFiles files
          (fun q => if q = p then Synology.defaultTagMeta else oracle q) now)[i]?
        = some x' →
      (x.path ≠ p → x' = x) ∧
        (x.path = p →
          (Synology.findAudioFiles files (fun _ => Synology.defaultTagMeta) now)[i]?
            = some x')) ∧
    (∀ f : Synology.SynologyFile,
      Synology.processFile (fun _ => Synology.defaultTagMeta) now f
        = { path := f.path
            name := f.name
            artist := some (jsOr (Synology.parseAudioFileName f.name
              (Synology.folderOf f.path)).artist "Unknown Artist")
            album := some (jsOr (Synology.parseAudioFileName f.name
              (Synology.folderOf f.path)).album "Unknown Album")
            title := some (jsOr (Synology.parseAudioFileName f.name
              (Synology.folderOf f.path)).title (Synology.stripExtension f.name))
            track := some (Synology.parseAudioFileName f.name
              (Synology.folderOf f.path)).track
            year := none
            duration := none
            genre := none
            mtime := jsOrOptNat ((f.additional.bind Synology.SynoAdditional.time).map
              Synology.SynoTime.mtime) now }) := by
  refine ⟨?_, ?_, fun f => rfl⟩
  · rw [Synology.length_findAudioFiles, Synology.length_findAudioFiles]
  · intro i x x' hx hx'
    rw [Synology.findAudioFiles_getElem] at hx hx'
    cases haud : (files.filter (fun f => !f.isdir && Synology.isAudioFile f.name))[i]? with
    | none =>
        rw [haud] at hx
        simp at hx
    | some f =>
        rw [haud] at hx hx'
        by_cases hc : i < Synology.maxFiles
        · rw [if_pos hc] at hx hx'
          simp only [Option.map_some'] at hx hx'
          injection hx with hx
          injection hx' with hx'
          constructor
          · intro hne
            have hfp : f.path ≠ p := by
              rw [← hx] at hne
              exact hne
            rw [← hx, ← hx']
            exact Synology.processFile_congr now f (by simp [hfp])
          · intro hpp
            have hfp : f.path = p := by
              rw [← hx] at hpp
              exact hpp
            rw [Synology.findAudioFiles_getElem, haud, if_pos hc]
            simp only [Option.map_some', Option.some.injEq]
            rw [← hx']
            exact Synology.processFile_congr now f (by simp [hfp])
        · rw [if_neg hc] at hx hx'
          simp only [Option.map_some'] at hx hx'
          injection hx with hx
          injection hx' with hx'
          constructor
          · intro _
            rw [← hx, ← hx']
          · intro _
            rw [Synology.findAudioFiles_getElem, haud, if_neg hc]
            simp only [Option.map_some', Option.some.injEq]
            exact hx'

/-- Witness for C6 at the 51-file listing with one failing path. -/
theorem one_file_failure_isolation_witness :
    (Synology.findAudioFiles capScanListing
        (fun q => if q = "/m/b.mp3" then Synology.defaultTagMeta else fullTagFixture)
        300).length
      = (Synology.findAudioFiles capScanListing (fun _ => fullTagFixture) 300).length ∧
    (Synology.processFile (fun _ => Synology.defaultTagMeta) 300 oldFileFixture).duration
      = none := by
  have h := one_file_failure_isolation capScanListing (fun _ => fullTagFixture) 300
    "/m/b.mp3"
  exact ⟨h.1, by rw [h.2.2 oldFileFixture]⟩

/-- C5: The filename heuristic. On the extension-stripped filename split on
the separator: with at least two segments the last segment is the title;
with at least three segments whose second-to-last is purely numeric, that
number is the track; the immediate parent folder is the album and its parent
the artist (the folder components, being non-empty, win the JS or against
the filename segments); the Unknown defaults apply when neither folders nor
segments supply a value; and the Daft Punk example parses as claimed. -/
theorem filename_heuristic (filename folderPath : String) :
    (2 ≤ (splitOnStr (Synology.stripExtension filename) " - ").length →
      (Synology.parseAudioFileName filename folderPath).title
        = Synology.jsGet (splitOnStr (Synology.stripExtension filename) " - ")
            (((splitOnStr (Synology.stripExtension filename) " - ").length : Int) - 1)) ∧
    (3 ≤ (splitOnStr (Synology.stripExtension filename) " - ").length →
      Synology.isAllDigits (Synology.jsGet
          (splitOnStr (Synology.stripExtension filename) " - ")
          (((splitOnStr (Synology.stripExtension filename) " - ").length : Int) - 2))
        = true →
      (Synology.parseAudioFileName filename folderPath).track
        = Synology.natOfDigits (Synology.jsGet
            (splitOnStr (Synology.stripExtension filename) " - ")
            (((splitOnStr (Synology.stripExtension filename) " - ").length : Int) - 2))) ∧
    (2 ≤ ((splitOnStr folderPath "/").filter (fun s => s ≠ "")).length →
      (Synology.parseAudioFileName filename folderPath).artist
          = Synology.jsGet ((splitOnStr folderPath "/").filter (fun s => s ≠ ""))
              ((((splitOnStr folderPath "/").filter (fun s => s ≠ "")).length : Int) - 2) ∧
        (Synology.parseAudioFileName filename folderPath).album
          = Synology.jsGet ((splitOnStr folderPath "/").filter (fun s => s ≠ ""))
              ((((splitOnStr folderPath "/").filter (fun s => s ≠ "")).length : Int) - 1)) ∧
    (Synology.stripExtension filename = "" → folderPath = "" →
      (Synology.parseAudioFileName filename folderPath).artist = "Unknown Artist" ∧
        (Synology.parseAudioFileName filename folderPath).album = "Unknown Album") ∧
    Synology.parseAudioFileName
        "Daft Punk - Discovery - 03 - Harder Better Faster Stronger.flac"
        "/music/Daft Punk/Discovery"
      = { artist := "Daft Punk", album := "Discovery",
          title := "Harder Better Faster Stronger", track := 3 } := by
  refine ⟨?_, ?_, ?_, ?_, by decide⟩
  · intro h2
    unfold Synology.parseAudioFileName
    dsimp only
    split_ifs <;> rfl
  · intro h3 hdig
    unfold Synology.parseAudioFileName
    dsimp only
    split_ifs with ha hb
    · rfl
    · exact absurd ⟨h3, hdig⟩ hb
    · omega
  · intro h2
    have h0 : (0 : Int) ≤ (((splitOnStr folderPath "/").filter
        (fun s => s ≠ "")).length : Int) - 2 := by omega
    have h0' : (0 : Int) ≤ (((splitOnStr folderPath "/").filter
        (fun s => s ≠ "")).length : Int) - 1 := by omega
    have h1 : ((((splitOnStr folderPath "/").filter
        (fun s => s ≠ "")).length : Int) - 2).toNat
        < ((splitOnStr folderPath "/").filter (fun s => s ≠ "")).length := by omega
    have h1' : ((((splitOnStr folderPath "/").filter
        (fun s => s ≠ "")).length : Int) - 1).toNat
        < ((splitOnStr folderPath "/").filter (fun s => s ≠ "")).length := by omega
    have hmem := jsGet_mem _ _ h0 h1
    have hmem' := jsGet_mem _ _ h0' h1'
    have hne : Synology.jsGet ((splitOnStr folderPath "/").filter (fun s => s ≠ ""))
        ((((splitOnStr folderPath "/").filter (fun s => s ≠ "")).length : Int) - 2)
        ≠ "" := by
      simpa using (List.mem_filter.mp hmem).2
    have hne' : Synology.jsGet ((splitOnStr folderPath "/").filter (fun s => s ≠ ""))
        ((((splitOnStr folderPath "/").filter (fun s => s ≠ "")).length : Int) - 1)
        ≠ "" := by
      simpa using (List.mem_filter.mp hmem').2
    unfold Synology.parseAudioFileName
    dsimp only
    simp only [ne_eq, decide_not] at hne hne' ⊢
    constructor
    · simp [jsOr, hne]
    · simp [jsOr, hne']
  · intro h1 h2
    subst h2
    unfold Synology.parseAudioFileName
    dsimp only
    rw [h1]
    constructor
    · decide
    · decide

/-- Witness for C5 at the Daft Punk example, through the general conjuncts. -/
theorem filename_heuristic_witness :
    (Synology.parseAudioFileName
        "Daft Punk - Discovery - 03 - Harder Better Faster Stronger.flac"
        "/music/Daft Punk/Discovery").title = "Harder Better Faster Stronger" ∧
      (Synology.parseAudioFileName
        "Daft Punk - Discovery - 03 - Harder Better Faster Stronger.flac"
        "/music/Daft Punk/Discovery").track = 3 ∧
      (Synology.parseAudioFileName
        "Daft Punk - Discovery - 03 - Harder Better Faster Stronger.flac"
        "/music/Daft Punk/Discovery").artist = "Daft Punk" ∧
      (Synology.parseAudioFileName
        "Daft Punk - Discovery - 03 - Harder Better Faster Stronger.flac"
        "/music/Daft Punk/Discovery").album = "Discovery" := by
  have h := filename_heuristic
    "Daft Punk - Discovery - 03 - Harder Better Faster Stronger.flac"
    "/music/Daft Punk/Discovery"
  refine ⟨?_, ?_, ?_, ?_⟩
  · rw [h.1 (by decide)]
    decide
  · rw [h.2.1 (by decide) (by decide)]
    decide
  · rw [(h.2.2.1 (by decide)).1]
    decide
  · rw [(h.2.2.1 (by decide)).2]
    decide

end AudioAgg
